import Mathlib

/-!
Verification development for the `ocr_data_insertion` repository.

Shallow embedding conventions:
* Python `str` is modelled as `PyStr := List Char`.
* Python `float` values arising in this code are all produced from decimal
  string literals and closed under the operations used here (addition,
  multiplication, `round(x, n)`), so they are modelled exactly by the
  fixed-point decimal type `PyNum` (`num / 10 ^ exp`).  `float(s)` is
  modelled for the finite decimal-literal fragment (optional sign, digits,
  optional fraction, optional exponent); underscore grouping and
  `inf`/`nan` literals are outside the model.
* Python `None` / optional values are `Option`; Python truthiness of
  strings is modelled explicitly (`truthy`).
* `uuid.uuid4()`, hash digests, `date.today()`, `datetime.now()` and the
  random module are nondeterministic inputs of the program; they are
  supplied by an environment record `Env` and a threaded generation
  counter, and all theorems quantify over them.
-/

/-- Python `str` as a list of characters. -/
abbrev PyStr := List Char

/-- Opaque identifiers (`uuid.UUID` values) are modelled as naturals. -/
abbrev UUID := ℕ

/-- Whitespace characters recognised by Python's `str.strip`/`str.split`. -/
def isWsChar (c : Char) : Bool :=
  c.toNat == 32 || c.toNat == 9 || c.toNat == 10 || c.toNat == 13 ||
    c.toNat == 11 || c.toNat == 12

/-- Python `str.strip()`. -/
def pyStrip (l : PyStr) : PyStr :=
  ((l.dropWhile isWsChar).reverse.dropWhile isWsChar).reverse

/-- Truthiness of an `Optional[str]` value: `None` and `""` are falsy. -/
def truthy (v : Option PyStr) : Bool :=
  match v with
  | none => false
  | some s => !s.isEmpty

/-- Python `a or b` on `Optional[str]` values. -/
def pyOr (a b : Option PyStr) : Option PyStr :=
  if truthy a then a else b

/-- Rendering of an `Optional[str]` inside an f-string (`None` prints as `"None"`). -/
def pyReprOpt (v : Option PyStr) : PyStr :=
  match v with
  | none => "None".toList
  | some s => s

/-- The decimal digit `d` as a character. -/
def digitChar (d : ℕ) : Char := Char.ofNat (48 + d)

/-- Numeric value of a digit character. -/
def charVal (c : Char) : ℕ := c.toNat - 48

/-- ASCII digit test (model of `str.isdigit` on the data seen here). -/
def isDigitC (c : Char) : Bool := 48 ≤ c.toNat && c.toNat ≤ 57

/-- Fuel-driven decimal printing of a natural number (empty for `0`). -/
def natToCharsAux : ℕ → ℕ → PyStr
  | 0, _ => []
  | fuel + 1, n =>
    if n = 0 then [] else natToCharsAux fuel (n / 10) ++ [digitChar (n % 10)]

/-- Python `str(n)` for a natural number. -/
def natToChars (n : ℕ) : PyStr :=
  if n = 0 then ['0'] else natToCharsAux n n

/-- Numeric value of a digit string (model of `int(s)` on digit strings). -/
def charsToNat (l : PyStr) : ℕ :=
  l.foldl (fun a c => 10 * a + charVal c) 0

/-- Left zero-padding to width `w` (model of `str.zfill` / `{:0wd}` formatting). -/
def zfill (w : ℕ) (l : PyStr) : PyStr :=
  List.replicate (w - l.length) '0' ++ l

/-- Python `f"{n:0wd}"`. -/
def fmtNat (w n : ℕ) : PyStr := zfill w (natToChars n)

/-- Python `str.split(sep)` for a one-character separator (keeps empty parts). -/
def splitOnChar (sep : Char) : PyStr → List PyStr
  | [] => [[]]
  | c :: cs =>
    if c = sep then [] :: splitOnChar sep cs
    else
      match splitOnChar sep cs with
      | [] => [[c]]
      | p :: ps => (c :: p) :: ps

/-- Python substring test `needle in hay`. -/
def containsSub (needle : PyStr) : PyStr → Bool
  | [] => needle.isEmpty
  | c :: cs => needle.isPrefixOf (c :: cs) || containsSub needle cs

/-- Helper for `str.split()`: accumulate the current word (reversed). -/
def pyWordsAux : PyStr → PyStr → List PyStr
  | [], acc => if acc.isEmpty then [] else [acc.reverse]
  | c :: cs, acc =>
    if isWsChar c then
      if acc.isEmpty then pyWordsAux cs [] else acc.reverse :: pyWordsAux cs []
    else pyWordsAux cs (c :: acc)

/-- Python `str.split()` (split on whitespace runs, no empty parts). -/
def pyWords (l : PyStr) : List PyStr := pyWordsAux l []

/-- Association-list lookup used to model Python `dict` access. -/
def alookup {α β : Type} [DecidableEq α] (k : α) : List (α × β) → Option β
  | [] => none
  | (k', v) :: rest => if k = k' then some v else alookup k rest

/-- Exact decimal numbers `num / 10 ^ exp`, the model of the Python floats
occurring in this program. -/
structure PyNum where
  num : ℤ
  exp : ℕ
deriving DecidableEq

/-- Strip trailing decimal zeros (fuel-driven), producing the canonical form. -/
def PyNum.nrmAux : ℕ → ℤ → ℕ → PyNum
  | 0, n, e => ⟨n, e⟩
  | fuel + 1, n, e =>
    if e = 0 then ⟨n, 0⟩
    else if n % 10 = 0 then PyNum.nrmAux fuel (n / 10) (e - 1) else ⟨n, e⟩

/-- Canonical form of a decimal (unique representation of each value). -/
def PyNum.nrm (x : PyNum) : PyNum := PyNum.nrmAux x.exp x.num x.exp

/-- An integer as a decimal (model of `float(n)`). -/
def PyNum.ofInt (n : ℤ) : PyNum := ⟨n, 0⟩

/-- The decimal zero. -/
def PyNum.zero : PyNum := ⟨0, 0⟩

/-- Addition of decimals. -/
def PyNum.add (a b : PyNum) : PyNum :=
  let e := max a.exp b.exp
  PyNum.nrm ⟨a.num * 10 ^ (e - a.exp) + b.num * 10 ^ (e - b.exp), e⟩

/-- Multiplication of decimals. -/
def PyNum.mul (a b : PyNum) : PyNum :=
  PyNum.nrm ⟨a.num * b.num, a.exp + b.exp⟩

/-- Value comparison `a <= b`. -/
def PyNum.le (a b : PyNum) : Bool :=
  decide (a.num * 10 ^ b.exp ≤ b.num * 10 ^ a.exp)

/-- Value comparison `a < b`. -/
def PyNum.lt (a b : PyNum) : Bool :=
  decide (a.num * 10 ^ b.exp < b.num * 10 ^ a.exp)

/-- Value equality `a == b` (representation-independent). -/
def PyNum.eqv (a b : PyNum) : Bool :=
  decide (a.num * 10 ^ b.exp = b.num * 10 ^ a.exp)

/-- Round-half-to-even division of `n` by a positive `d` (Python `round`). -/
def roundHalfEvenInt (n d : ℤ) : ℤ :=
  let q := Int.fdiv n d
  let r := n - q * d
  if 2 * r < d then q else if d < 2 * r then q + 1 else if q % 2 = 0 then q else q + 1

/-- Python `round(x, prec)` on the exact-decimal model. -/
def PyNum.roundTo (prec : ℕ) (x : PyNum) : PyNum :=
  if x.exp ≤ prec then PyNum.nrm x
  else PyNum.nrm ⟨roundHalfEvenInt x.num (10 ^ (x.exp - prec)), prec⟩

/-- Python `sum(...)` over decimals. -/
def PyNum.sum (l : List PyNum) : PyNum := l.foldl PyNum.add PyNum.zero

/-- Exponent part of a float literal: `mant * 10 ^ fexp⁻¹` scaled by `10 ^ ±e`. -/
def parseExpPart (mant : ℤ) (fexp : ℕ) (r : PyStr) : Option PyNum :=
  let (esgn, r1) : ℤ × PyStr :=
    match r with
    | '+' :: t => (1, t)
    | '-' :: t => (-1, t)
    | t => (1, t)
  if r1.isEmpty || !(r1.all isDigitC) then none
  else
    let e := charsToNat r1
    if esgn = 1 then some (PyNum.nrm ⟨mant * 10 ^ e, fexp⟩)
    else some (PyNum.nrm ⟨mant, fexp + e⟩)

/-- Python `float(s)` on the finite decimal-literal fragment. -/
def parseFloat (s : PyStr) : Option PyNum :=
  let (sgn, rest) : ℤ × PyStr :=
    match s with
    | '+' :: r => (1, r)
    | '-' :: r => (-1, r)
    | r => (1, r)
  let (ip, rest1) := rest.span isDigitC
  let (fp, rest2) : Option PyStr × PyStr :=
    match rest1 with
    | '.' :: r =>
      let (f, r2) := r.span isDigitC
      (some f, r2)
    | r => (none, r)
  let digitsOk : Bool := !ip.isEmpty || (match fp with | some f => !f.isEmpty | none => false)
  if !digitsOk then none
  else
    let mant : ℤ := sgn * (charsToNat (ip ++ fp.getD []) : ℤ)
    let fexp : ℕ := (fp.getD []).length
    match rest2 with
    | [] => some (PyNum.nrm ⟨mant, fexp⟩)
    | 'e' :: r => parseExpPart mant fexp r
    | 'E' :: r => parseExpPart mant fexp r
    | _ => none

/-- Calendar dates (proleptic Gregorian, as Python's `datetime.date`). -/
structure PyDate where
  year : ℕ
  month : ℕ
  day : ℕ
deriving DecidableEq

/-- Gregorian leap-year rule. -/
def isLeapYear (y : ℕ) : Bool :=
  y % 4 = 0 && (y % 100 != 0 || y % 400 = 0)

/-- Length of month `m` in year `y`. -/
def daysInMonth (y m : ℕ) : ℕ :=
  if m = 2 then (if isLeapYear y then 29 else 28)
  else if m = 4 || m = 6 || m = 9 || m = 11 then 30
  else 31

/-- The dates representable by `datetime.date` (year 1..9999). -/
def ValidDate (d : PyDate) : Prop :=
  1 ≤ d.year ∧ d.year ≤ 9999 ∧ 1 ≤ d.month ∧ d.month ≤ 12 ∧
    1 ≤ d.day ∧ d.day ≤ daysInMonth d.year d.month

instance (d : PyDate) : Decidable (ValidDate d) := by
  unfold ValidDate
  infer_instance

/-- The next calendar day. -/
def succDate (d : PyDate) : PyDate :=
  if d.day < daysInMonth d.year d.month then ⟨d.year, d.month, d.day + 1⟩
  else if d.month < 12 then ⟨d.year, d.month + 1, 1⟩
  else ⟨d.year + 1, 1, 1⟩

/-- Python `d + timedelta(days = n)` (total model; the year-9999 overflow
error of `datetime` is never reached by the lead times used here). -/
def addDays (n : ℕ) (d : PyDate) : PyDate := Nat.iterate succDate n d

/-- Python `date.timetuple().tm_yday`. -/
def dayOfYear (d : PyDate) : ℕ :=
  (List.range (d.month - 1)).foldl (fun a i => a + daysInMonth d.year (i + 1)) 0 + d.day

/-- C-locale abbreviated month names (strftime `%b`). -/
def monthAbb (m : ℕ) : PyStr :=
  match m with
  | 1 => "Jan".toList
  | 2 => "Feb".toList
  | 3 => "Mar".toList
  | 4 => "Apr".toList
  | 5 => "May".toList
  | 6 => "Jun".toList
  | 7 => "Jul".toList
  | 8 => "Aug".toList
  | 9 => "Sep".toList
  | 10 => "Oct".toList
  | 11 => "Nov".toList
  | 12 => "Dec".toList
  | _ => []

/-- Lower-cased month-abbreviation table used by `strptime` `%b` matching. -/
def monthTable : List (PyStr × ℕ) :=
  [("jan".toList, 1), ("feb".toList, 2), ("mar".toList, 3), ("apr".toList, 4),
   ("may".toList, 5), ("jun".toList, 6), ("jul".toList, 7), ("aug".toList, 8),
   ("sep".toList, 9), ("oct".toList, 10), ("nov".toList, 11), ("dec".toList, 12)]

/-- Case-insensitive lowering of a string. -/
def lowcase (l : PyStr) : PyStr := l.map Char.toLower

/-- `strptime` `%b` field: a case-insensitive abbreviated month name. -/
def parseMonthAbb (p : PyStr) : Option ℕ := alookup (lowcase p) monthTable

/-- `strptime` numeric field of one or two digits with value in `1..maxv`
(`%d` with `maxv = 31`, `%m` with `maxv = 12`). -/
def parseNumField (maxv : ℕ) (p : PyStr) : Option ℕ :=
  if p ≠ [] ∧ p.length ≤ 2 ∧ p.all isDigitC = true then
    let v := charsToNat p
    if 1 ≤ v ∧ v ≤ maxv then some v else none
  else none

/-- `strptime` `%Y` field: exactly four digits. -/
def parseYear4 (p : PyStr) : Option ℕ :=
  if p.length = 4 ∧ p.all isDigitC = true then some (charsToNat p) else none

/-- The six formats tried by `DataTransformer.parse_date`, in source order:
`%d-%b-%Y`, `%d/%m/%Y`, `%Y-%m-%d`, `%d-%m-%Y`, `%d.%m.%Y`, `%m/%d/%Y`. -/
inductive DateFmt
  | fmtDbY
  | fmtDmY
  | fmtYmD
  | fmtDmY2
  | fmtDmY3
  | fmtMdY
deriving DecidableEq

/-- Separator character of each format pattern. -/
def fmtSep : DateFmt → Char
  | .fmtDbY => '-'
  | .fmtDmY => '/'
  | .fmtYmD => '-'
  | .fmtDmY2 => '-'
  | .fmtDmY3 => '.'
  | .fmtMdY => '/'

/-- The `datetime` constructor check performed after field matching. -/
def mkDate (y m d : ℕ) : Option PyDate :=
  if 1 ≤ y ∧ y ≤ 9999 ∧ 1 ≤ m ∧ m ≤ 12 ∧ 1 ≤ d ∧ d ≤ daysInMonth y m then
    some ⟨y, m, d⟩
  else none

/-- `datetime.strptime(s, fmt).date()` for the six formats: full-string field
match (per CPython's `_strptime` regexes) followed by the constructor check. -/
def parseWithFmt (fmt : DateFmt) (s : PyStr) : Option PyDate :=
  match splitOnChar (fmtSep fmt) s with
  | [p1, p2, p3] =>
    match fmt with
    | .fmtDbY =>
      match parseNumField 31 p1, parseMonthAbb p2, parseYear4 p3 with
      | some d, some m, some y => mkDate y m d
      | _, _, _ => none
    | .fmtDmY | .fmtDmY2 | .fmtDmY3 =>
      match parseNumField 31 p1, parseNumField 12 p2, parseYear4 p3 with
      | some d, some m, some y => mkDate y m d
      | _, _, _ => none
    | .fmtYmD =>
      match parseYear4 p1, parseNumField 12 p2, parseNumField 31 p3 with
      | some y, some m, some d => mkDate y m d
      | _, _, _ => none
    | .fmtMdY =>
      match parseNumField 12 p1, parseNumField 31 p2, parseYear4 p3 with
      | some m, some d, some y => mkDate y m d
      | _, _, _ => none
  | _ => none

/-- The format list of `DataTransformer.parse_date`, in source order. -/
def dateFormats : List DateFmt :=
  [.fmtDbY, .fmtDmY, .fmtYmD, .fmtDmY2, .fmtDmY3, .fmtMdY]

/-- Try the formats in order, returning the first successful parse. -/
def tryFormats : List DateFmt → PyStr → Option PyDate
  | [], _ => none
  | f :: fs, s =>
    match parseWithFmt f s with
    | some d => some d
    | none => tryFormats fs s

/-- `DataTransformer.parse_date`: falsy input yields `None`; otherwise the
stripped string is tried against the format list. -/
def parse_date (date_str : Option PyStr) : Option PyDate :=
  if truthy date_str = false then none
  else tryFormats dateFormats (pyStrip (date_str.getD []))

/-- Modelled from CPython `date.strftime` for the six patterns above, with the
documented zero padding of `%d`/`%m`/`%Y` and C-locale `%b` names. -/
def formatDate (fmt : DateFmt) (d : PyDate) : PyStr :=
  let dd := fmtNat 2 d.day
  let mm := fmtNat 2 d.month
  let yy := fmtNat 4 d.year
  match fmt with
  | .fmtDbY => dd ++ '-' :: (monthAbb d.month ++ '-' :: yy)
  | .fmtDmY => dd ++ '/' :: (mm ++ '/' :: yy)
  | .fmtYmD => yy ++ '-' :: (mm ++ '-' :: dd)
  | .fmtDmY2 => dd ++ '-' :: (mm ++ '-' :: yy)
  | .fmtDmY3 => dd ++ '.' :: (mm ++ '.' :: yy)
  | .fmtMdY => mm ++ '/' :: (dd ++ '/' :: yy)

/-- `DataTransformer.calculate_expected_delivery_date`. -/
def calculate_expected_delivery_date (po_date : PyDate) (lead_time_days : ℕ) : PyDate :=
  addDays lead_time_days po_date

/-- `DataTransformer.extract_first` on the `Optional[List[str]]` fields of
`StaticData`: first element of a non-empty list, stripped; empty/absent is
`None` (an empty list is falsy in Python). -/
def extract_first (value : Option (List PyStr)) : Option PyStr :=
  match value with
  | some (x :: _) => some (pyStrip x)
  | some [] => none
  | none => none

/-- `DataTransformer.clean_string`: strip, collapse whitespace runs, truncate
to `max_length` when that is truthy, and return `None` for an empty result. -/
def clean_string (value : Option PyStr) (max_length : Option ℕ) : Option PyStr :=
  if truthy value = false then none
  else
    let cleaned := List.intercalate [' '] (pyWords (pyStrip (value.getD [])))
    let cleaned :=
      match max_length with
      | some m => if m ≠ 0 && decide (m < cleaned.length) then cleaned.take m else cleaned
      | none => cleaned
    if cleaned.isEmpty then none else some cleaned

/-- `DataTransformer.safe_float`: remove commas, spaces and currency glyphs,
strip, convert with `float`, round to `precision`; `default` on failure. -/
def safe_float (value : Option PyStr) (default : PyNum) (precision : ℕ) : PyNum :=
  match value with
  | none => default
  | some s =>
    if s.isEmpty then default
    else
      let s1 := s.filter (fun c => !(c == ',' || c == ' ' || c == '₹' || c == '$' || c == '€'))
      let s2 := pyStrip s1
      match parseFloat s2 with
      | some r => PyNum.roundTo precision r
      | none => default

/-- `DataTransformer.extract_tax_rate`. -/
def extract_tax_rate (tax_str : Option PyStr) : PyNum :=
  if truthy tax_str = false then PyNum.zero
  else
    let t := pyStrip (tax_str.getD [])
    let cleaned := t.filter (fun c => isDigitC c || c == '.')
    if cleaned.isEmpty then PyNum.zero
    else
      let rate := safe_float (some cleaned) PyNum.zero 2
      let rate :=
        if PyNum.lt PyNum.zero rate && PyNum.le rate (PyNum.ofInt 1) then
          PyNum.mul rate (PyNum.ofInt 100)
        else rate
      PyNum.roundTo 2 rate

/-- The UOM synonym table of `DataTransformer.normalize_uom`. -/
def uomMap : List (PyStr × PyStr) :=
  [("EACH".toList, "EA".toList), ("PIECE".toList, "EA".toList),
   ("PCS".toList, "EA".toList), ("PC".toList, "EA".toList),
   ("NOS".toList, "EA".toList), ("UNIT".toList, "EA".toList),
   ("KILOGRAM".toList, "KG".toList), ("KILOGRAMS".toList, "KG".toList),
   ("KGS".toList, "KG".toList), ("GRAM".toList, "G".toList),
   ("GRAMS".toList, "G".toList), ("LITER".toList, "L".toList),
   ("LITERS".toList, "L".toList), ("METER".toList, "M".toList),
   ("METERS".toList, "M".toList), ("BOX".toList, "BX".toList),
   ("CARTON".toList, "CT".toList), ("PALLET".toList, "PL".toList)]

/-- `DataTransformer.normalize_uom`. -/
def normalize_uom (uom : Option PyStr) : PyStr :=
  if truthy uom = false then "EA".toList
  else
    let u := (pyStrip (uom.getD [])).map Char.toUpper
    match alookup u uomMap with
    | some v => v
    | none => if u.length ≤ 3 then u else "EA".toList

/-- `DataTransformer.extract_hsn_code`. -/
def extract_hsn_code (hsn : Option PyStr) : PyStr :=
  if truthy hsn = false then "999999".toList
  else
    let ds := (hsn.getD []).filter isDigitC
    if ds.isEmpty then "999999".toList
    else if ds.length < 6 then ds ++ List.replicate (6 - ds.length) '0'
    else if 8 < ds.length then ds.take 8
    else ds

/-- Nondeterministic inputs of one processing call: hash digests, the
`uuid4` stream, clock values and random draws.  Theorems quantify over it. -/
structure Env where
  sha6 : PyStr → PyStr
  md54 : PyStr → PyStr
  freshUuid : ℕ → UUID
  today : PyDate
  nowYear : ℕ
  grnCounter : ℕ
  invTimestamp : PyStr
  batchRand : ℕ → ℕ

/-- `IDGenerator.generate_po_id`: the input PO number plus a 6-hex-digit
digest suffix (the digest function lives in `Env`). -/
def generate_po_id (env : Env) (po_number : PyStr) : PyStr :=
  po_number ++ '-' :: env.sha6 po_number

/-- `IDGenerator.generate_grn_number`: the current class counter, as a string. -/
def generate_grn_number (env : Env) : PyStr :=
  natToChars env.grnCounter

/-- `IDGenerator.generate_grn_id`: GRN number, two-digit fiscal year
(unpadded `f"{year}"` of `year % 100`) and digit-sum checksum. -/
def generate_grn_id (env : Env) (grn_number : PyStr) : PyStr :=
  grn_number ++ natToChars (env.nowYear % 100) ++
    natToChars ((grn_number.foldl (fun a c => a + charVal c) 0) % 10)

/-- `IDGenerator.generate_grn_line_id`. -/
def generate_grn_line_id (grn_id : PyStr) (line_number : ℕ) : PyStr :=
  grn_id ++ '-' :: fmtNat 4 line_number

/-- `IDGenerator.generate_po_line_id`: `po_id.split('-')[0]` plus the
five-digit zero-padded line number. -/
def generate_po_line_id (po_id : PyStr) (line_number : ℕ) : PyStr :=
  po_id.takeWhile (fun c => c != '-') ++ '-' :: fmtNat 5 line_number

/-- The tax-condition-type code table of `generate_po_condition_id`. -/
def conditionMap : List (PyStr × PyStr) :=
  [("IGST".toList, "JIGG".toList), ("CGST".toList, "JICG".toList),
   ("SGST".toList, "JISG".toList), ("VAT".toList, "MWST".toList),
   ("FREIGHT".toList, "FRA1".toList), ("DISCOUNT".toList, "SKTO".toList)]

/-- `IDGenerator.generate_po_condition_id`. -/
def generate_po_condition_id (env : Env) (po_id condition_type : PyStr) : PyStr :=
  let sap_condition := (alookup condition_type conditionMap).getD condition_type
  let po_base := po_id.takeWhile (fun c => c != '-')
  po_base ++ '-' :: (sap_condition ++ '-' :: env.md54 (po_id ++ condition_type))

/-- `IDGenerator.generate_batch_number`: Julian-date format with a random
three-digit suffix (drawn per call, indexed by `callIdx`); the
`material_code` argument is unused by the source body. -/
def generate_batch_number (env : Env) (callIdx : ℕ) (material_code : Option PyStr)
    (manufacture_date : PyDate) : PyStr :=
  'B' :: (fmtNat 2 (manufacture_date.year % 100) ++
    fmtNat 3 (dayOfYear manufacture_date) ++ natToChars (env.batchRand callIdx))

/-- State of one `ReferenceResolver`/mapper session: the resolver cache and
the number of `uuid4()` draws made so far. -/
structure SessionState where
  cache : List (PyStr × UUID)
  gen : ℕ
deriving DecidableEq

/-- One `uuid4()` draw (used for the `id` default of every record model). -/
def freshRecordId (env : Env) (st : SessionState) : UUID × SessionState :=
  (env.freshUuid st.gen, ⟨st.cache, st.gen + 1⟩)

/-- `ReferenceResolver._get_or_create_ref`: return the cached identifier for
`key`, or draw a fresh one and cache it. -/
def get_or_create_ref (env : Env) (st : SessionState) (key : PyStr) : UUID × SessionState :=
  match alookup key st.cache with
  | some v => (v, st)
  | none =>
    let v := env.freshUuid st.gen
    (v, ⟨st.cache ++ [(key, v)], st.gen + 1⟩)

/-- `ReferenceResolver.resolve_supplier_ref` (key `f"supplier_{gstn or name}"`). -/
def resolve_supplier_ref (env : Env) (st : SessionState)
    (supplier_name supplier_gstn : Option PyStr) : UUID × SessionState :=
  get_or_create_ref env st ("supplier_".toList ++ pyReprOpt (pyOr supplier_gstn supplier_name))

/-- `ReferenceResolver.resolve_item_ref` (key `f"item_{hsn_code or description}"`). -/
def resolve_item_ref (env : Env) (st : SessionState)
    (item_description : PyStr) (hsn_code : Option PyStr) : UUID × SessionState :=
  get_or_create_ref env st ("item_".toList ++ pyReprOpt (pyOr hsn_code (some item_description)))

/-- `ReferenceResolver.resolve_legal_entity_ref`. -/
def resolve_legal_entity_ref (env : Env) (st : SessionState)
    (gstn : Option PyStr) : UUID × SessionState :=
  get_or_create_ref env st ("legal_entity_".toList ++ pyReprOpt gstn)

/-- `ReferenceResolver.resolve_site_ref` (key `f"site_{gstn or address}"`). -/
def resolve_site_ref (env : Env) (st : SessionState)
    (address gstn : Option PyStr) : UUID × SessionState :=
  get_or_create_ref env st ("site_".toList ++ pyReprOpt (pyOr gstn address))

/-- `ReferenceResolver.resolve_cost_center_ref`. -/
def resolve_cost_center_ref (env : Env) (st : SessionState)
    (cost_center_code : Option PyStr) : UUID × SessionState :=
  get_or_create_ref env st
    ("cost_center_".toList ++ pyReprOpt (pyOr cost_center_code (some "default".toList)))

/-- `ReferenceResolver.resolve_profit_center_ref`. -/
def resolve_profit_center_ref (env : Env) (st : SessionState)
    (profit_center_code : Option PyStr) : UUID × SessionState :=
  get_or_create_ref env st
    ("profit_center_".toList ++ pyReprOpt (pyOr profit_center_code (some "default".toList)))

/-- `ReferenceResolver.resolve_project_ref`. -/
def resolve_project_ref (env : Env) (st : SessionState)
    (project_id : Option PyStr) : UUID × SessionState :=
  get_or_create_ref env st
    ("project_".toList ++ pyReprOpt (pyOr project_id (some "default".toList)))

/-- `ReferenceResolver.resolve_plant_ref`. -/
def resolve_plant_ref (env : Env) (st : SessionState)
    (plant_code : Option PyStr) : UUID × SessionState :=
  get_or_create_ref env st
    ("plant_".toList ++ pyReprOpt (pyOr plant_code (some "default".toList)))

/-- `ReferenceResolver.resolve_gl_account_ref`. -/
def resolve_gl_account_ref (env : Env) (st : SessionState)
    (account_code : Option PyStr) : UUID × SessionState :=
  get_or_create_ref env st
    ("gl_account_".toList ++ pyReprOpt (pyOr account_code (some "default".toList)))

/-- `ReferenceResolver.resolve_tax_rate_ref`; `rateRepr` is the Python
`str()` rendering of the float argument (`"0.0"` at its single call site). -/
def resolve_tax_rate_ref (env : Env) (st : SessionState)
    (rateRepr : PyStr) (tax_type : PyStr) : UUID × SessionState :=
  get_or_create_ref env st
    ("tax_rate_".toList ++ tax_type ++ '_' :: rateRepr)

/-- The currency allow-list of `resolve_currency_id`. -/
def valid_currencies : List PyStr :=
  ["INR".toList, "USD".toList, "EUR".toList, "GBP".toList,
   "JPY".toList, "AUD".toList, "CAD".toList, "SGD".toList]

/-- `ReferenceResolver.resolve_currency_id`. -/
def resolve_currency_id (currency_code : PyStr) : PyStr :=
  let up := currency_code.map Char.toUpper
  if valid_currencies.contains up then up else "INR".toList

/-- `models.ocr_input.InvoiceLine` (all fields `Optional[str]`). -/
structure InvoiceLine where
  description : Option PyStr
  quantity : Option PyStr
  line_amount : Option PyStr
  unit_price : Option PyStr
  hsn_number : Option PyStr
  igst_rate : Option PyStr
  sgst_rate : Option PyStr
  cgst_rate : Option PyStr
  utgst_rate : Option PyStr
  po_number : Option PyStr
  line_no : Option PyStr
  unit : Option PyStr
deriving DecidableEq

/-- `models.ocr_input.StaticData`, restricted to the fields the mapper reads
(the remaining `Optional[List[str]]` fields are never consumed). -/
structure StaticData where
  invoice_date : Option (List PyStr)
  invoice_currency : Option (List PyStr)
  total_invoice_amount : Option (List PyStr)
  subtotal : Option (List PyStr)
  bill_to_address : Option (List PyStr)
  supplier_gstn : Option (List PyStr)
  location_gstn : Option (List PyStr)
  supplier_name : Option (List PyStr)
  supplier_address : Option (List PyStr)
  invoice_no : Option (List PyStr)
  cgst : Option (List PyStr)
  sgst : Option (List PyStr)
  igst : Option (List PyStr)
  po_number : Option (List PyStr)
deriving DecidableEq

/-- `models.ocr_input.OCRInput`. -/
structure OCRInput where
  dynamic : List InvoiceLine
  static : StaticData
deriving DecidableEq

/-- `models.db_models.POHeader`, restricted to the fields the mapper sets
(audit timestamps and constant-`None` columns are omitted). -/
structure POHeader where
  id : UUID
  s_po_number : PyStr
  s_po_id : PyStr
  s_po_date : PyDate
  s_po_status : PyStr
  s_po_type : PyStr
  s_supplier_ref : UUID
  s_supplier_site_ref : UUID
  s_legal_entity_ref : UUID
  s_legal_entity_site_ref : UUID
  s_currency_id : PyStr
  s_po_total_value : PyNum
  s_cost_center_ref : UUID
  s_profit_center_ref : UUID
  s_project_ref : UUID
  s_plant_ref : UUID
  s_tax_rate_ref : UUID
  s_created_by : PyStr
  s_payment_terms : PyStr
  s_matching_type : PyStr
  s_effective_from : PyDate
  s_po_valid_from : PyDate
  s_po_valid_to : PyDate
  s_incoterms : PyStr
  s_freight_included_flag : Bool
  s_external_system : PyStr
  s_external_system_id : PyStr
deriving DecidableEq

/-- `models.db_models.POLine`, fields set by the mapper. -/
structure POLine where
  id : UUID
  s_po_header_ref : UUID
  s_po_line_id : PyStr
  s_line_number : PyNum
  s_line_status : PyStr
  s_item_ref : UUID
  s_hsn_id : PyStr
  s_ordered_quantity : PyNum
  s_unit_price : PyNum
  s_line_amount : PyNum
  s_uom_id : PyStr
  s_effective_from : PyDate
  s_expected_delivery_date : PyDate
  s_qc_required_flag : Bool
  s_batch_required_flag : Bool
  s_expiry_required_flag : Bool
  s_coa_required_flag : Bool
  s_tolerance_pct : PyNum
  s_external_system : PyStr
  s_external_system_id : PyStr
deriving DecidableEq

/-- `models.db_models.POCondition`, fields set by the mapper. -/
structure POCondition where
  id : UUID
  s_po_header_ref : UUID
  s_po_condition_id : PyStr
  s_condition_type : PyStr
  s_calculation_basis : PyStr
  s_rate : PyNum
  s_uom_id : PyStr
  s_effective_from : PyDate
  s_external_system : PyStr
  s_external_system_id : PyStr
deriving DecidableEq

/-- `models.db_models.GRNHeader`, fields set by the mapper. -/
structure GRNHeader where
  id : UUID
  s_grn_number : PyStr
  s_grn_id : PyStr
  s_grn_date : PyDate
  s_grn_status : PyStr
  s_qc_status : PyStr
  s_supplier_site_ref : UUID
  s_legal_entity_site_ref : UUID
  s_po_line_ref : UUID
  s_gl_account_ref : UUID
  s_total_received_qty : PyNum
  s_total_received_amount : PyNum
  s_weight_uom_id : PyStr
  s_transport_mode : PyStr
  s_effective_from : PyDate
  s_external_system : PyStr
  s_external_system_id : PyStr
deriving DecidableEq

/-- `models.db_models.GRNLine`, fields set by the mapper. -/
structure GRNLine where
  id : UUID
  s_grn_ref : UUID
  s_grn_line_id : PyStr
  s_item_description : PyStr
  s_item_ref : UUID
  s_received_qty : PyNum
  s_unit_price : PyNum
  s_total_received_amount : PyNum
  s_accepted_qty : PyNum
  s_rejected_qty : PyNum
  s_uom_id : PyStr
  s_weight_uom : PyStr
  s_qc_result : PyStr
  s_grn_line_status : PyStr
  s_qc_required_flag : Bool
  s_batch_number : PyStr
  s_manufacture_date : PyDate
  s_expiry_date : Option PyDate
  s_compliance_verified_flag : Bool
  s_effective_from : PyDate
  s_external_system : PyStr
  s_external_system_id : PyStr
deriving DecidableEq

/-- The `supplier_info` dictionary built by the mapper. -/
structure SupplierInfo where
  supplier_ref : UUID
  supplier_name : PyStr
  supplier_gstn : Option PyStr
  supplier_address : Option PyStr
  supplier_site_ref : UUID
deriving DecidableEq

/-- The `buyer_info` dictionary built by the mapper. -/
structure BuyerInfo where
  legal_entity_ref : UUID
  legal_entity_site_ref : UUID
  location_gstn : Option PyStr
  bill_to_address : Option PyStr
deriving DecidableEq

/-- One entry of the `item_info` list built by the mapper. -/
structure ItemInfo where
  item_ref : UUID
  description : PyStr
  hsn_code : PyStr
  uom : PyStr
deriving DecidableEq

/-- `OCRMapper._extract_invoice_number` (the timestamp of the fallback
`INV{timestamp}` name comes from `Env`). -/
def extract_invoice_number (env : Env) (static : StaticData) : PyStr :=
  let invoice_no := extract_first static.invoice_no
  let invoice_no :=
    if truthy invoice_no = false then some ("INV".toList ++ env.invTimestamp) else invoice_no
  (clean_string invoice_no (some 50)).getD "UNKNOWN".toList

/-- `OCRMapper._extract_invoice_date`. -/
def extract_invoice_date (env : Env) (static : StaticData) : PyDate :=
  (parse_date (extract_first static.invoice_date)).getD env.today

/-- `OCRMapper._extract_po_number`: the static `po_number` field, else the
first line's `po_number`; cleaned; never generated. -/
def extract_po_number (static : StaticData) (lines : List InvoiceLine) : Option PyStr :=
  let po_number := extract_first static.po_number
  let po_number :=
    if truthy po_number = false then
      match lines with
      | [] => po_number
      | l :: _ => l.po_number
    else po_number
  if truthy po_number then clean_string po_number (some 50) else none

/-- Service keywords of `OCRMapper._determine_po_type`. -/
def service_keywords : List PyStr :=
  ["service".toList, "consulting".toList, "maintenance".toList,
   "support".toList, "license".toList]

/-- Capex keywords of `OCRMapper._determine_po_type`. -/
def capex_keywords : List PyStr :=
  ["equipment".toList, "machinery".toList, "capital".toList,
   "installation".toList, "infrastructure".toList]

/-- `OCRMapper._determine_po_type`. -/
def determine_po_type (lines : List InvoiceLine) : PyStr :=
  if lines.isEmpty then "MATERIAL".toList
  else
    let descriptions :=
      List.intercalate [' '] (lines.map (fun l => lowcase (l.description.getD [])))
    if service_keywords.any (fun k => containsSub k descriptions) then "SERVICE".toList
    else if capex_keywords.any (fun k => containsSub k descriptions) then "CAPEX".toList
    else "MATERIAL".toList

/-- Payment-terms table of `OCRMapper._create_po_header`. -/
def paymentTermsMap : List (PyStr × PyStr) :=
  [("MATERIAL".toList, "0002".toList), ("SERVICE".toList, "0003".toList),
   ("CAPEX".toList, "0004".toList)]

/-- `OCRMapper._create_po_header` (resolver draws happen in source argument
order, then the record's `uuid4` id). -/
def create_po_header (env : Env) (st : SessionState) (po_number po_id po_type : PyStr)
    (po_date : PyDate) (supplier_ref supplier_site_ref legal_entity_ref legal_entity_site_ref : UUID)
    (currency : PyStr) (total_value : PyNum) : POHeader × SessionState :=
  let payment_terms := (alookup po_type paymentTermsMap).getD "0002".toList
  let matching_type := if po_type == "MATERIAL".toList then "3WAY".toList else "2WAY".toList
  let incoterms := if po_type == "CAPEX".toList then "EXW".toList else "DDP".toList
  let cc := resolve_cost_center_ref env st none
  let pc := resolve_profit_center_ref env cc.2 none
  let proj := resolve_project_ref env pc.2 none
  let plant := resolve_plant_ref env proj.2 none
  let tax := resolve_tax_rate_ref env plant.2 "0.0".toList "GST".toList
  let hid := freshRecordId env tax.2
  ({ id := hid.1, s_po_number := po_number, s_po_id := po_id, s_po_date := po_date,
     s_po_status := "APPROVED".toList, s_po_type := po_type,
     s_supplier_ref := supplier_ref, s_supplier_site_ref := supplier_site_ref,
     s_legal_entity_ref := legal_entity_ref, s_legal_entity_site_ref := legal_entity_site_ref,
     s_currency_id := currency, s_po_total_value := total_value,
     s_cost_center_ref := cc.1, s_profit_center_ref := pc.1, s_project_ref := proj.1,
     s_plant_ref := plant.1, s_tax_rate_ref := tax.1,
     s_created_by := "OCR_AUTOMATION".toList, s_payment_terms := payment_terms,
     s_matching_type := matching_type, s_effective_from := po_date,
     s_po_valid_from := po_date, s_po_valid_to := addDays 365 po_date,
     s_incoterms := incoterms, s_freight_included_flag := po_type == "MATERIAL".toList,
     s_external_system := "INVOICE_OCR".toList, s_external_system_id := po_number.take 10 },
   hid.2)

/-- `OCRMapper._create_po_line`. -/
def create_po_line (env : Env) (st : SessionState) (po_header_ref : UUID) (po_id : PyStr)
    (line_number : ℕ) (line_data : InvoiceLine) (effective_from po_date : PyDate)
    (item_ref : UUID) (hsn_code uom : PyStr) : POLine × SessionState :=
  let po_line_id := generate_po_line_id po_id line_number
  let quantity := safe_float line_data.quantity PyNum.zero 3
  let unit_price := safe_float line_data.unit_price PyNum.zero 4
  let line_amount := safe_float line_data.line_amount PyNum.zero 2
  let line_amount :=
    if PyNum.eqv line_amount PyNum.zero && PyNum.lt PyNum.zero quantity &&
        PyNum.lt PyNum.zero unit_price then
      PyNum.roundTo 2 (PyNum.mul quantity unit_price)
    else line_amount
  let expected_delivery := calculate_expected_delivery_date po_date 14
  let tolerance_pct := if PyNum.lt quantity (PyNum.ofInt 100) then PyNum.ofInt 5 else PyNum.ofInt 10
  let lid := freshRecordId env st
  ({ id := lid.1, s_po_header_ref := po_header_ref, s_po_line_id := po_line_id,
     s_line_number := PyNum.ofInt (line_number * 10), s_line_status := "OPEN".toList,
     s_item_ref := item_ref, s_hsn_id := hsn_code, s_ordered_quantity := quantity,
     s_unit_price := unit_price, s_line_amount := line_amount, s_uom_id := uom,
     s_effective_from := effective_from, s_expected_delivery_date := expected_delivery,
     s_qc_required_flag := true, s_batch_required_flag := false,
     s_expiry_required_flag := false, s_coa_required_flag := false,
     s_tolerance_pct := tolerance_pct, s_external_system := "INVOICE_OCR".toList,
     s_external_system_id := (natToChars line_number).take 10 },
   lid.2)

/-- The inner `add_condition` helper of `OCRMapper._create_po_conditions`. -/
def add_condition (env : Env) (st : SessionState) (po_header_ref : UUID) (po_id : PyStr)
    (tax_type : PyStr) (rate_str : Option PyStr) (effective_from : PyDate) :
    List POCondition × SessionState :=
  if truthy rate_str = false then ([], st)
  else
    let rate := extract_tax_rate rate_str
    if PyNum.lt PyNum.zero rate then
      let condition_id := generate_po_condition_id env po_id tax_type
      let cid := freshRecordId env st
      ([{ id := cid.1, s_po_header_ref := po_header_ref, s_po_condition_id := condition_id,
          s_condition_type := tax_type, s_calculation_basis := "PERCENT".toList,
          s_rate := rate, s_uom_id := "%".toList, s_effective_from := effective_from,
          s_external_system := "INVOICE_OCR".toList, s_external_system_id := tax_type.take 10 }],
       cid.2)
    else ([], st)

/-- The line-level loop of `OCRMapper._create_po_conditions`. -/
def line_conditions (env : Env) (po_header_ref : UUID) (po_id : PyStr) (effective_from : PyDate) :
    SessionState → List InvoiceLine → List POCondition × SessionState
  | st, [] => ([], st)
  | st, l :: ls =>
    let c1 :=
      if truthy l.igst_rate then
        add_condition env st po_header_ref po_id "IGST".toList l.igst_rate effective_from
      else ([], st)
    let c2 :=
      if truthy l.cgst_rate then
        add_condition env c1.2 po_header_ref po_id "CGST".toList l.cgst_rate effective_from
      else ([], c1.2)
    let c3 :=
      if truthy l.sgst_rate then
        add_condition env c2.2 po_header_ref po_id "SGST".toList l.sgst_rate effective_from
      else ([], c2.2)
    let rest := line_conditions env po_header_ref po_id effective_from c3.2 ls
    (c1.1 ++ c2.1 ++ c3.1 ++ rest.1, rest.2)

/-- The condition list of `_create_po_conditions` before deduplication:
header IGST, CGST, SGST, then each line's rates, in source order. -/
def create_po_conditions_raw (env : Env) (st : SessionState) (po_header_ref : UUID)
    (po_id : PyStr) (static : StaticData) (lines : List InvoiceLine) (effective_from : PyDate) :
    List POCondition × SessionState :=
  let h1 :=
    add_condition env st po_header_ref po_id "IGST".toList (extract_first static.igst) effective_from
  let h2 :=
    add_condition env h1.2 po_header_ref po_id "CGST".toList (extract_first static.cgst) effective_from
  let h3 :=
    add_condition env h2.2 po_header_ref po_id "SGST".toList (extract_first static.sgst) effective_from
  let lc := line_conditions env po_header_ref po_id effective_from h3.2 lines
  (h1.1 ++ h2.1 ++ h3.1 ++ lc.1, lc.2)

/-- The `(condition_type, rate)` deduplication key. -/
def condKey (c : POCondition) : PyStr × PyNum := (c.s_condition_type, c.s_rate)

/-- The `seen`-set duplicate-removal loop of `_create_po_conditions`
(keeps the first occurrence of each key). -/
def dedup_conditions : List POCondition → List (PyStr × PyNum) → List POCondition
  | [], _ => []
  | c :: cs, seen =>
    if condKey c ∈ seen then dedup_conditions cs seen
    else c :: dedup_conditions cs (condKey c :: seen)

/-- `OCRMapper._create_po_conditions`. -/
def create_po_conditions (env : Env) (st : SessionState) (po_header_ref : UUID)
    (po_id : PyStr) (static : StaticData) (lines : List InvoiceLine) (effective_from : PyDate) :
    List POCondition × SessionState :=
  let raw := create_po_conditions_raw env st po_header_ref po_id static lines effective_from
  (dedup_conditions raw.1 [], raw.2)

/-- `OCRMapper._create_grn_header`. -/
def create_grn_header (env : Env) (st : SessionState) (grn_number grn_id : PyStr)
    (grn_date : PyDate) (supplier_site_ref legal_entity_site_ref po_line_ref : UUID)
    (total_qty total_amount : PyNum) (effective_from : PyDate) : GRNHeader × SessionState :=
  let gl := resolve_gl_account_ref env st none
  let hid := freshRecordId env gl.2
  ({ id := hid.1, s_grn_number := grn_number, s_grn_id := grn_id, s_grn_date := grn_date,
     s_grn_status := "POSTED".toList, s_qc_status := "PENDING".toList,
     s_supplier_site_ref := supplier_site_ref, s_legal_entity_site_ref := legal_entity_site_ref,
     s_po_line_ref := po_line_ref, s_gl_account_ref := gl.1,
     s_total_received_qty := total_qty, s_total_received_amount := total_amount,
     s_weight_uom_id := "KG".toList, s_transport_mode := "ROAD".toList,
     s_effective_from := effective_from, s_external_system := "INVOICE_OCR".toList,
     s_external_system_id := grn_number.take 10 },
   hid.2)

/-- `OCRMapper._create_grn_line` (the per-line random batch suffix is drawn
from `Env`, indexed by the line number). -/
def create_grn_line (env : Env) (st : SessionState) (grn_ref : UUID) (grn_id : PyStr)
    (line_number : ℕ) (line_data : InvoiceLine) (effective_from : PyDate)
    (item_info : ItemInfo) : GRNLine × SessionState :=
  let grn_line_id := generate_grn_line_id grn_id line_number
  let received_qty := safe_float line_data.quantity PyNum.zero 3
  let unit_price := safe_float line_data.unit_price PyNum.zero 4
  let line_amount := safe_float line_data.line_amount PyNum.zero 2
  let line_amount :=
    if PyNum.eqv line_amount PyNum.zero && PyNum.lt PyNum.zero received_qty &&
        PyNum.lt PyNum.zero unit_price then
      PyNum.roundTo 2 (PyNum.mul received_qty unit_price)
    else line_amount
  let accepted_qty := received_qty
  let rejected_qty := PyNum.zero
  let batch_number := generate_batch_number env line_number (some item_info.hsn_code) effective_from
  let lid := freshRecordId env st
  ({ id := lid.1, s_grn_ref := grn_ref, s_grn_line_id := grn_line_id,
     s_item_description :=
       (clean_string (pyOr line_data.description (some "UNKNOWN".toList)) (some 255)).getD
         "UNKNOWN".toList,
     s_item_ref := item_info.item_ref, s_received_qty := received_qty,
     s_unit_price := unit_price, s_total_received_amount := line_amount,
     s_accepted_qty := accepted_qty, s_rejected_qty := rejected_qty,
     s_uom_id := item_info.uom, s_weight_uom := "KG".toList,
     s_qc_result := "PENDING".toList, s_grn_line_status := "RECEIVED".toList,
     s_qc_required_flag := true, s_batch_number := batch_number,
     s_manufacture_date := effective_from, s_expiry_date := none,
     s_compliance_verified_flag := false, s_effective_from := effective_from,
     s_external_system := "INVOICE_OCR".toList,
     s_external_system_id := (natToChars line_number).take 10 },
   lid.2)

/-- The PO branch's per-line loop of `map_to_database_models` (1-based index):
item resolution, `item_info` entry, PO line, `po_line_refs` entry. -/
def po_lines_loop (env : Env) (po_header_id : UUID) (po_id : PyStr) (invoice_date : PyDate) :
    SessionState → ℕ → List InvoiceLine →
      List POLine × List ItemInfo × List (ℕ × UUID) × SessionState
  | st, _, [] => ([], [], [], st)
  | st, idx, l :: ls =>
    let hsn_code := extract_hsn_code l.hsn_number
    let item_description := (pyOr l.description (some "UNKNOWN".toList)).getD "UNKNOWN".toList
    let uom := normalize_uom l.unit
    let item_ref := resolve_item_ref env st item_description (some hsn_code)
    let info : ItemInfo := ⟨item_ref.1, item_description, hsn_code, uom⟩
    let pl :=
      create_po_line env item_ref.2 po_header_id po_id idx l invoice_date invoice_date
        item_ref.1 hsn_code uom
    let rest := po_lines_loop env po_header_id po_id invoice_date pl.2 (idx + 1) ls
    (pl.1 :: rest.1, info :: rest.2.1, (idx, pl.1.id) :: rest.2.2.1, rest.2.2.2)

/-- The no-PO branch's per-line loop: item resolution and `item_info` only. -/
def item_info_loop (env : Env) : SessionState → List InvoiceLine → List ItemInfo × SessionState
  | st, [] => ([], st)
  | st, l :: ls =>
    let hsn_code := extract_hsn_code l.hsn_number
    let item_description := (pyOr l.description (some "UNKNOWN".toList)).getD "UNKNOWN".toList
    let uom := normalize_uom l.unit
    let item_ref := resolve_item_ref env st item_description (some hsn_code)
    let rest := item_info_loop env item_ref.2 ls
    (⟨item_ref.1, item_description, hsn_code, uom⟩ :: rest.1, rest.2)

/-- The GRN-line loop of `map_to_database_models`; `item_info[idx-1]` always
exists (one entry per line), so the `getD` default is dead code. -/
def grn_lines_loop (env : Env) (grn_ref : UUID) (grn_id : PyStr) (effective_from : PyDate)
    (item_info : List ItemInfo) :
    SessionState → ℕ → List InvoiceLine → List GRNLine × SessionState
  | st, _, [] => ([], st)
  | st, idx, l :: ls =>
    let info := (item_info.get? (idx - 1)).getD ⟨0, [], [], []⟩
    let gl := create_grn_line env st grn_ref grn_id idx l effective_from info
    let rest := grn_lines_loop env grn_ref grn_id effective_from item_info gl.2 (idx + 1) ls
    (gl.1 :: rest.1, rest.2)

/-- The 8-tuple returned by `OCRMapper.map_to_database_models`. -/
structure MapResult where
  po_header : Option POHeader
  po_lines : List POLine
  po_conditions : List POCondition
  grn_header : GRNHeader
  grn_lines : List GRNLine
  supplier_info : SupplierInfo
  buyer_info : BuyerInfo
  item_info : List ItemInfo
deriving DecidableEq

/-- The common tail of `map_to_database_models` (GRN identifiers, totals,
`first_po_line_ref`, GRN header and lines); the `getD 0` fallback on
`po_line_refs` is dead code (key 1 is present whenever the dict is non-empty). -/
def map_finish (env : Env) (st : SessionState) (invoice_date : PyDate)
    (supplier_site_ref legal_entity_site_ref : UUID)
    (supplier_info : SupplierInfo) (buyer_info : BuyerInfo)
    (po_header : Option POHeader) (po_lines : List POLine) (po_conditions : List POCondition)
    (po_line_refs : List (ℕ × UUID)) (item_info : List ItemInfo)
    (lines : List InvoiceLine) (static : StaticData) : MapResult :=
  let grn_number := generate_grn_number env
  let grn_id := generate_grn_id env grn_number
  let total_qty := PyNum.sum (lines.map (fun l => safe_float l.quantity PyNum.zero 2))
  let total_amount :=
    safe_float (pyOr (extract_first static.subtotal) (extract_first static.total_invoice_amount))
      PyNum.zero 2
  let first_po_line_ref :=
    if po_line_refs.isEmpty then resolve_project_ref env st none
    else ((alookup 1 po_line_refs).getD 0, st)
  let grn_header :=
    create_grn_header env first_po_line_ref.2 grn_number grn_id invoice_date supplier_site_ref
      legal_entity_site_ref first_po_line_ref.1 total_qty total_amount invoice_date
  let grn_lines :=
    grn_lines_loop env grn_header.1.id grn_id invoice_date item_info grn_header.2 1 lines
  { po_header := po_header, po_lines := po_lines, po_conditions := po_conditions,
    grn_header := grn_header.1, grn_lines := grn_lines.1, supplier_info := supplier_info,
    buyer_info := buyer_info, item_info := item_info }

/-- `OCRMapper.map_to_database_models` (the logged `invoice_no` extraction has
no effect on the result and is elided). -/
def map_to_database_models (env : Env) (st : SessionState) (ocr_data : OCRInput) : MapResult :=
  let static := ocr_data.static
  let lines := ocr_data.dynamic
  let invoice_date := extract_invoice_date env static
  let po_number := extract_po_number static lines
  let supplier_name :=
    (clean_string (extract_first static.supplier_name) (some 255)).getD "Unknown Supplier".toList
  let supplier_gstn := clean_string (extract_first static.supplier_gstn) (some 15)
  let supplier_address := clean_string (extract_first static.supplier_address) (some 500)
  let location_gstn := clean_string (extract_first static.location_gstn) (some 15)
  let bill_to_address := clean_string (extract_first static.bill_to_address) (some 500)
  let currency :=
    resolve_currency_id ((pyOr (extract_first static.invoice_currency) (some "INR".toList)).getD [])
  let supplier_ref := resolve_supplier_ref env st (some supplier_name) supplier_gstn
  let supplier_site_ref := resolve_site_ref env supplier_ref.2 supplier_address supplier_gstn
  let legal_entity_ref := resolve_legal_entity_ref env supplier_site_ref.2 location_gstn
  let legal_entity_site_ref := resolve_site_ref env legal_entity_ref.2 bill_to_address location_gstn
  let supplier_info : SupplierInfo :=
    ⟨supplier_ref.1, supplier_name, supplier_gstn, supplier_address, supplier_site_ref.1⟩
  let buyer_info : BuyerInfo :=
    ⟨legal_entity_ref.1, legal_entity_site_ref.1, location_gstn, bill_to_address⟩
  let po_type := determine_po_type lines
  match po_number with
  | some poNum =>
    let po_id := generate_po_id env poNum
    let po_total := PyNum.sum (lines.map (fun l => safe_float l.line_amount PyNum.zero 2))
    let po_header :=
      create_po_header env legal_entity_site_ref.2 poNum po_id po_type invoice_date supplier_ref.1
        supplier_site_ref.1 legal_entity_ref.1 legal_entity_site_ref.1 currency po_total
    let po_ls := po_lines_loop env po_header.1.id po_id invoice_date po_header.2 1 lines
    let po_conditions :=
      create_po_conditions env po_ls.2.2.2 po_header.1.id po_header.1.s_po_id static lines
        invoice_date
    map_finish env po_conditions.2 invoice_date supplier_site_ref.1 legal_entity_site_ref.1
      supplier_info buyer_info (some po_header.1) po_ls.1 po_conditions.1 po_ls.2.2.1
      po_ls.2.1 lines static
  | none =>
    let item_info := item_info_loop env legal_entity_site_ref.2 lines
    map_finish env item_info.2 invoice_date supplier_site_ref.1 legal_entity_site_ref.1
      supplier_info buyer_info none [] [] [] item_info.1 lines static

/-- Python exceptions relevant to the processor boundary: pydantic's
`ValidationError`, built-in `ValueError`, and anything else. -/
inductive PyError where
  | validationError (msg : PyStr)
  | valueError (msg : PyStr)
  | other (msg : PyStr)
deriving DecidableEq

/-- `str(e)` of an exception. -/
def PyError.msg : PyError → PyStr
  | .validationError m => m
  | .valueError m => m
  | .other m => m

/-- A dynamically-typed component of the mapper's returned tuple (Python
tuples are heterogeneous; unpacking inspects only the length). -/
inductive MapComponent where
  | poHeaderC : Option POHeader → MapComponent
  | poLinesC : List POLine → MapComponent
  | poConditionsC : List POCondition → MapComponent
  | grnHeaderC : GRNHeader → MapComponent
  | grnLinesC : List GRNLine → MapComponent
  | supplierInfoC : SupplierInfo → MapComponent
  | buyerInfoC : BuyerInfo → MapComponent
  | itemInfoC : List ItemInfo → MapComponent
deriving DecidableEq

/-- The `return (po_header, po_lines, po_conditions, grn_header, grn_lines,
supplier_info, buyer_info, item_info)` statement of the mapper, as the Python
tuple it builds. -/
def mapReturnTuple (r : MapResult) : List MapComponent :=
  [.poHeaderC r.po_header, .poLinesC r.po_lines, .poConditionsC r.po_conditions,
   .grnHeaderC r.grn_header, .grnLinesC r.grn_lines, .supplierInfoC r.supplier_info,
   .buyerInfoC r.buyer_info, .itemInfoC r.item_info]

/-- Python semantics of `a, b, c, d, e = t`: succeeds exactly on a 5-tuple,
raising `ValueError` otherwise. -/
def unpack5 (t : List MapComponent) :
    Except PyError (MapComponent × MapComponent × MapComponent × MapComponent × MapComponent) :=
  match t with
  | [a, b, c, d, e] => .ok (a, b, c, d, e)
  | t =>
    if t.length < 5 then
      .error (.valueError "not enough values to unpack (expected 5)".toList)
    else
      .error (.valueError "too many values to unpack (expected 5)".toList)

/-- The `details` sub-dictionary of a success response. -/
structure Details where
  grn_header_id : PyStr
  grn_lines_inserted : ℕ
  po_header_id : Option PyStr
  po_lines_inserted : ℕ
  po_conditions_inserted : ℕ
deriving DecidableEq

/-- The dictionary returned by `InvoiceProcessor.process_invoice` (keys that a
failure response omits are `none`). -/
structure Response where
  status : PyStr
  message : PyStr
  grn_number : Option PyStr
  grn_id : Option PyStr
  po_number : Option PyStr
  details : Option Details
  errors : List PyStr
deriving DecidableEq

/-- The `except ValidationError` response of `process_invoice`. -/
def validation_failure_response (msg : PyStr) : Response :=
  { status := "failed".toList, message := "Invalid OCR data format".toList,
    grn_number := none, grn_id := none, po_number := none, details := none,
    errors := [msg] }

/-- The `except Exception` response of `process_invoice`. -/
def generic_failure_response (msg : PyStr) : Response :=
  { status := "failed".toList, message := "Error processing invoice".toList,
    grn_number := none, grn_id := none, po_number := none, details := none,
    errors := [msg] }

/-- `InvoiceProcessor.process_invoice`.

`validated` is the outcome of `OCRInput(**ocr_data)` (the `_validate_input`
step): `ok` for a document passing validation, `error` for the raised
exception.  `dbOracle` models the remainder of the `try` block after the
5-variable unpacking (database insertion plus response assembly); that code
is unreachable because the mapper returns an 8-tuple, which is proved below,
so its behaviour is left as an oracle parameter that all theorems quantify
over.  The returned `Bool` is `true` iff the database-insertion step was
reached.  The two `except` clauses are modelled by matching the error kind:
`ValidationError` first, then any exception. -/
def process_invoice (env : Env) (st : SessionState)
    (dbOracle : MapComponent × MapComponent × MapComponent × MapComponent × MapComponent →
      Except PyError Response)
    (validated : Except PyError OCRInput) : Response × Bool :=
  match validated with
  | .error (.validationError m) => (validation_failure_response m, false)
  | .error e => (generic_failure_response e.msg, false)
  | .ok input =>
    match unpack5 (mapReturnTuple (map_to_database_models env st input)) with
    | .error (.validationError m) => (validation_failure_response m, false)
    | .error e => (generic_failure_response e.msg, false)
    | .ok t =>
      match dbOracle t with
      | .error (.validationError m) => (validation_failure_response m, true)
      | .error e => (generic_failure_response e.msg, true)
      | .ok resp => (resp, true)

/-- Failures reported by the query executor, split into the uniqueness
violation subtype and everything else. -/
inductive DbError where
  | uniqueViolation (msg : PyStr)
  | otherError (msg : PyStr)
deriving DecidableEq

/-- A row returned by a `SELECT id ...` existence check. -/
structure DbRow where
  id : UUID
deriving DecidableEq

/-- `MasterDataService.ensure_supplier`.

`cache` is `_inserted_refs`; `checkOutcome` and `insertOutcome` are the
outcomes of the two `run_query` calls (existence check, then insert).  The
source wraps neither call in any exception handling, so an error from either
propagates to the caller; the insert statement's text (including the PAN
derivation) affects only the SQL string and is not modelled.  The cache key
is `f"supplier_{supplier_ref}"`, with the identifier printed in decimal in
this model. -/
def ensure_supplier (cache : List (PyStr × UUID)) (supplier_ref : UUID)
    (supplier_name : PyStr) (supplier_gstn : Option PyStr)
    (checkOutcome : Except DbError (List DbRow))
    (insertOutcome : Except DbError Unit) :
    Except DbError (UUID × List (PyStr × UUID)) :=
  let cache_key := "supplier_".toList ++ natToChars supplier_ref
  match alookup cache_key cache with
  | some v => .ok (v, cache)
  | none =>
    match checkOutcome with
    | .error e => .error e
    | .ok result =>
      match result with
      | r :: _ => .ok (r.id, cache ++ [(cache_key, r.id)])
      | [] =>
        match insertOutcome with
        | .error e => .error e
        | .ok _ => .ok (supplier_ref, cache ++ [(cache_key, supplier_ref)])

/-- The claim's reading of `extract_tax_rate`: strip non-digit non-dot
characters; if the resulting numeric value lies in `(0, 1]`, multiply by 100;
round the result to 2 decimals; absent/unparsable yields `0.0`. -/
def extract_tax_rate_claim (tax_str : Option PyStr) : PyNum :=
  if truthy tax_str = false then PyNum.zero
  else
    let t := pyStrip (tax_str.getD [])
    let cleaned := t.filter (fun c => isDigitC c || c == '.')
    if cleaned.isEmpty then PyNum.zero
    else
      match parseFloat cleaned with
      | none => PyNum.zero
      | some v =>
        if PyNum.lt PyNum.zero v && PyNum.le v (PyNum.ofInt 1) then
          PyNum.roundTo 2 (PyNum.mul v (PyNum.ofInt 100))
        else PyNum.roundTo 2 v

/-- The amended reading of `extract_tax_rate`: the parsed value is first
rounded to 2 decimals (by `safe_float`'s default precision), and the
`(0, 1]` test and the factor-100 scaling apply to that rounded value. -/
def extract_tax_rate_amended (tax_str : Option PyStr) : PyNum :=
  if truthy tax_str = false then PyNum.zero
  else
    let t := pyStrip (tax_str.getD [])
    let cleaned := t.filter (fun c => isDigitC c || c == '.')
    if cleaned.isEmpty then PyNum.zero
    else
      match parseFloat cleaned with
      | none => PyNum.zero
      | some v =>
        let r := PyNum.roundTo 2 v
        if PyNum.lt PyNum.zero r && PyNum.le r (PyNum.ofInt 1) then
          PyNum.mul r (PyNum.ofInt 100)
        else r

/-- A concrete environment for witnesses and counterexamples. -/
def env0 : Env :=
  { sha6 := fun _ => "ABCDEF".toList, md54 := fun _ => "1A2B".toList,
    freshUuid := fun n => n + 100, today := ⟨2025, 8, 15⟩, nowYear := 2025,
    grnCounter := 5000000123, invTimestamp := "20250815120000".toList,
    batchRand := fun _ => 123 }

/-- The fresh session state of a new `OCRMapper`. -/
def st0 : SessionState := ⟨[], 0⟩

/-- A session state with one cached entry, for cache-stability witnesses. -/
def st9 : SessionState := ⟨[("k".toList, 42)], 5⟩

/-- An invoice line with every field absent. -/
def lineNone : InvoiceLine :=
  ⟨none, none, none, none, none, none, none, none, none, none, none, none⟩

/-- A static record with every field absent. -/
def staticNone : StaticData :=
  ⟨none, none, none, none, none, none, none, none, none, none, none, none, none, none⟩

/-- A document whose header and first line lack a PO number while the second
line carries one. -/
def doc3 : OCRInput :=
  ⟨[lineNone, { lineNone with po_number := some "PO-12345".toList }], staticNone⟩

/-- The example invoice line (Dell monitor) with a line-level IGST rate. -/
def line5 : InvoiceLine :=
  { lineNone with
    description := some "Dell UltraSharp Monitor".toList,
    quantity := some "1".toList,
    line_amount := some "17999.00".toList,
    unit_price := some "179999.00".toList,
    hsn_number := some "852851".toList,
    igst_rate := some "18".toList }

/-- A two-line document stating IGST 18% in the header and on every line,
with a PO number in the header. -/
def doc5 : OCRInput :=
  ⟨[line5, line5],
   { staticNone with
     igst := some ["18%".toList],
     po_number := some ["9500877232".toList],
     invoice_date := some ["15-Aug-2025".toList] }⟩

theorem alookup_append_self {α β : Type} [DecidableEq α] (k : α) (l : List (α × β)) (v : β)
    (h : alookup k l = none) : alookup k (l ++ [(k, v)]) = some v := by
  induction l with
  | nil => simp [alookup]
  | cons p rest ih =>
    obtain ⟨k', v'⟩ := p
    by_cases hk : k = k'
    · simp [alookup, hk] at h
    · simp only [alookup, List.cons_append, if_neg hk] at h ⊢
      exact ih h

theorem alookup_append_left {α β : Type} [DecidableEq α] (k : α) (l l2 : List (α × β)) (v : β)
    (h : alookup k l = some v) : alookup k (l ++ l2) = some v := by
  induction l with
  | nil => simp [alookup] at h
  | cons p rest ih =>
    obtain ⟨k', v'⟩ := p
    by_cases hk : k = k'
    · simp only [alookup, if_pos hk] at h
      simp only [alookup, List.cons_append, if_pos hk]
      exact h
    · simp only [alookup, if_neg hk] at h
      simp only [alookup, List.cons_append, if_neg hk]
      exact ih h

theorem get_or_create_idem (env : Env) (st : SessionState) (key : PyStr) :
    get_or_create_ref env (get_or_create_ref env st key).2 key
      = ((get_or_create_ref env st key).1, (get_or_create_ref env st key).2) := by
  unfold get_or_create_ref
  cases h : alookup key st.cache with
  | some v => simp [h]
  | none =>
    simp only [h]
    have h2 : alookup key (st.cache ++ [(key, env.freshUuid st.gen)]) = some (env.freshUuid st.gen) :=
      alookup_append_self key st.cache _ h
    simp [h2]

theorem get_or_create_stable (env : Env) (st : SessionState) (key : PyStr) (k : PyStr) (v : UUID)
    (h : alookup k st.cache = some v) :
    alookup k ((get_or_create_ref env st key).2).cache = some v := by
  unfold get_or_create_ref
  cases h2 : alookup key st.cache with
  | some w => simpa [h2] using h
  | none =>
    simp only [h2]
    exact alookup_append_left k st.cache _ v h

/-- Claim C9: within one `ReferenceResolver` instance, a second resolve call
with the identical key returns the identical identifier and leaves the state
unchanged, a resolve call never changes an identifier already cached for any
key, and in particular `resolve_item_ref` with the same description/HSN key
twice yields one item identifier. -/
theorem claim_C9 (env : Env) (st : SessionState) (key : PyStr)
    (desc : PyStr) (hsn : Option PyStr) :
    get_or_create_ref env (get_or_create_ref env st key).2 key
        = ((get_or_create_ref env st key).1, (get_or_create_ref env st key).2)
    ∧ (∀ k v, alookup k st.cache = some v →
        alookup k ((get_or_create_ref env st key).2).cache = some v)
    ∧ resolve_item_ref env (resolve_item_ref env st desc hsn).2 desc hsn
        = ((resolve_item_ref env st desc hsn).1, (resolve_item_ref env st desc hsn).2) := by
  refine ⟨get_or_create_idem env st key, fun k v h => get_or_create_stable env st key k v h, ?_⟩
  unfold resolve_item_ref
  exact get_or_create_idem env st _

/-- Witness for C9 at a concrete cached state and key. -/
theorem claim_C9_witness :
    alookup "k".toList ((get_or_create_ref env0 st9 "item_852800".toList).2).cache = some 42 :=
  (claim_C9 env0 st9 "item_852800".toList [] none).2.1 "k".toList 42 (by decide)

/-- Claim C4 counterexample: with an empty service cache and an existence
check that found nothing, a uniqueness-violation error raised by the insert
is propagated by `ensure_supplier`, not recovered by a re-check — the claim's
required behaviour (returning the now-existing identifier) does not occur. -/
theorem claim_C4_counterexample :
    ensure_supplier [] 7 "Acme Ltd".toList none (.ok [])
        (.error (.uniqueViolation "duplicate key value violates unique constraint".toList))
      = .error (.uniqueViolation "duplicate key value violates unique constraint".toList) := by
  rfl

/-- Claim C4 (amended): when the cache misses and the existence check finds
no row, any error raised by the query executor during the following insert —
a uniqueness violation included — propagates to the caller; no re-check is
performed. -/
theorem claim_C4_amended (cache : List (PyStr × UUID)) (supplier_ref : UUID)
    (supplier_name : PyStr) (supplier_gstn : Option PyStr) (e : DbError)
    (h : alookup ("supplier_".toList ++ natToChars supplier_ref) cache = none) :
    ensure_supplier cache supplier_ref supplier_name supplier_gstn (.ok []) (.error e)
      = .error e := by
  unfold ensure_supplier
  simp only [h]

/-- Witness for the amended C4 at a concrete input. -/
theorem claim_C4_amended_witness :
    ensure_supplier [] 9 "Acme Ltd".toList none (.ok []) (.error (.otherError "boom".toList))
      = .error (.otherError "boom".toList) :=
  claim_C4_amended [] 9 "Acme Ltd".toList none (.otherError "boom".toList) (by decide)

/-- Claim C1: `process_invoice` always returns a structured result whose
status is `"success"` or `"failed"`; a `ValidationError` from input parsing
and any other exception are both converted into a failed-status result (with
the exception message in the `errors` list), never propagated. -/
theorem claim_C1 (env : Env) (st : SessionState)
    (dbOracle : MapComponent × MapComponent × MapComponent × MapComponent × MapComponent →
      Except PyError Response)
    (validated : Except PyError OCRInput) :
    ((process_invoice env st dbOracle validated).1.status = "success".toList ∨
      (process_invoice env st dbOracle validated).1.status = "failed".toList)
    ∧ (∀ m, process_invoice env st dbOracle (.error (.validationError m))
        = (validation_failure_response m, false))
    ∧ (∀ m, process_invoice env st dbOracle (.error (.other m))
        = (generic_failure_response m, false))
    ∧ (∀ input, (process_invoice env st dbOracle (.ok input)).1.status = "failed".toList) := by
  refine ⟨?_, fun m => rfl, fun m => rfl, fun input => rfl⟩
  match validated with
  | .error (.validationError m) => exact Or.inr rfl
  | .error (.valueError m) => exact Or.inr rfl
  | .error (.other m) => exact Or.inr rfl
  | .ok input => exact Or.inr rfl

/-- Claim C2: the mapper returns an 8-tuple while `process_invoice` unpacks
it into 5 variables, so for every validated input the unpacking raises
`ValueError`, the outer handler returns the failed-status result, and the
database-insertion step is never reached (the flag is `false`) — for every
possible behaviour of the insertion code. -/
theorem claim_C2 (env : Env) (st : SessionState)
    (dbOracle : MapComponent × MapComponent × MapComponent × MapComponent × MapComponent →
      Except PyError Response)
    (input : OCRInput) :
    (mapReturnTuple (map_to_database_models env st input)).length = 8
    ∧ process_invoice env st dbOracle (.ok input)
        = (generic_failure_response "too many values to unpack (expected 5)".toList, false) :=
  ⟨rfl, rfl⟩

theorem hsn_pad_take (ds : PyStr) (hd : ds ≠ []) :
    (if ds.length < 6 then ds ++ List.replicate (6 - ds.length) '0'
     else if 8 < ds.length then ds.take 8 else ds)
      = (ds ++ List.replicate 6 '0').take (min 8 (max 6 ds.length)) := by
  rcases Nat.lt_or_ge ds.length 6 with h6 | h6
  · have hmax : max 6 ds.length = 6 := by omega
    have hmin : min 8 (6 : ℕ) = 6 := by omega
    rw [if_pos h6, hmax, hmin, List.take_append_eq_append_take,
      List.take_of_length_le (by omega), List.take_replicate]
    have : min (6 - ds.length) 6 = 6 - ds.length := by omega
    rw [this]
  · rcases Nat.lt_or_ge 8 ds.length with h8 | h8
    · have hmax : max 6 ds.length = ds.length := by omega
      have hmin : min 8 ds.length = 8 := by omega
      rw [if_neg (by omega), if_pos h8, hmax, hmin, List.take_append_eq_append_take]
      have : 8 - ds.length = 0 := by omega
      rw [this]
      simp
    · have hmax : max 6 ds.length = ds.length := by omega
      have hmin : min 8 ds.length = ds.length := by omega
      rw [if_neg (by omega), if_neg (by omega), hmax, hmin, List.take_append_eq_append_take,
        List.take_of_length_le (by omega)]
      simp

/-- Claim C8: `extract_hsn_code` keeps only digits, right-pads with zeros to
6 when shorter, truncates to 8 when longer, and returns the sentinel
`"999999"` for an absent input or one without digits; concretely
`"8528" ↦ "852800"`, `"852851" ↦ "852851"`, `None ↦ "999999"`. -/
theorem claim_C8 (s : PyStr) :
    extract_hsn_code none = "999999".toList
    ∧ extract_hsn_code (some s)
        = (if (s.filter isDigitC).isEmpty then "999999".toList
           else ((s.filter isDigitC) ++ List.replicate 6 '0').take
             (min 8 (max 6 (s.filter isDigitC).length)))
    ∧ extract_hsn_code (some "8528".toList) = "852800".toList
    ∧ extract_hsn_code (some "852851".toList) = "852851".toList := by
  refine ⟨rfl, ?_, by decide, by decide⟩
  by_cases hs : s = []
  · subst hs
    simp [extract_hsn_code, truthy]
  · have ht : truthy (some s) = true := by
      simp [truthy, hs]
    unfold extract_hsn_code
    rw [ht]
    simp only [Bool.true_eq_false, if_false, Option.getD_some]
    by_cases hd : (s.filter isDigitC).isEmpty = true
    · simp [hd]
    · have hd2 : (s.filter isDigitC).isEmpty = false := by
        simpa using hd
      simp only [hd2, Bool.false_eq_true, if_false]
      refine hsn_pad_take _ ?_
      intro hnil
      rw [hnil] at hd2
      simp at hd2

theorem nrmAux_canon (fuel : ℕ) : ∀ (n : ℤ) (e : ℕ), e ≤ fuel →
    (PyNum.nrmAux fuel n e).exp = 0 ∨ (PyNum.nrmAux fuel n e).num % 10 ≠ 0 := by
  induction fuel with
  | zero =>
    intro n e he
    left
    have : e = 0 := Nat.le_zero.mp he
    simp [PyNum.nrmAux, this]
  | succ f ih =>
    intro n e he
    unfold PyNum.nrmAux
    by_cases h0 : e = 0
    · left
      simp [h0]
    · rw [if_neg h0]
      by_cases hm : n % 10 = 0
      · rw [if_pos hm]
        exact ih (n / 10) (e - 1) (by omega)
      · rw [if_neg hm]
        right
        exact hm

theorem nrm_canon (x : PyNum) :
    (PyNum.nrm x).exp = 0 ∨ (PyNum.nrm x).num % 10 ≠ 0 :=
  nrmAux_canon x.exp x.num x.exp le_rfl

theorem nrm_of_canon (x : PyNum) (h : x.exp = 0 ∨ x.num % 10 ≠ 0) : PyNum.nrm x = x := by
  obtain ⟨n, e⟩ := x
  cases e with
  | zero => rfl
  | succ k =>
    have hm : n % 10 ≠ 0 := by
      rcases h with h | h
      · exact absurd h (by simp)
      · exact h
    show PyNum.nrmAux (k + 1) n (k + 1) = ⟨n, k + 1⟩
    unfold PyNum.nrmAux
    rw [if_neg (Nat.succ_ne_zero k), if_neg hm]

theorem nrm_idem (x : PyNum) : PyNum.nrm (PyNum.nrm x) = PyNum.nrm x :=
  nrm_of_canon _ (nrm_canon x)

theorem nrmAux_exp_le (fuel : ℕ) : ∀ (n : ℤ) (e : ℕ), (PyNum.nrmAux fuel n e).exp ≤ e := by
  induction fuel with
  | zero => intro n e; simp [PyNum.nrmAux]
  | succ f ih =>
    intro n e
    unfold PyNum.nrmAux
    by_cases h0 : e = 0
    · simp [h0]
    · rw [if_neg h0]
      by_cases hm : n % 10 = 0
      · rw [if_pos hm]
        exact le_trans (ih (n / 10) (e - 1)) (by omega)
      · rw [if_neg hm]

theorem nrm_exp_le (x : PyNum) : (PyNum.nrm x).exp ≤ x.exp :=
  nrmAux_exp_le x.exp x.num x.exp

theorem roundTo_exp_le (p : ℕ) (x : PyNum) : (PyNum.roundTo p x).exp ≤ p := by
  unfold PyNum.roundTo
  by_cases h : x.exp ≤ p
  · rw [if_pos h]
    exact le_trans (nrm_exp_le x) h
  · rw [if_neg h]
    exact nrmAux_exp_le _ _ _

theorem roundTo_canon (p : ℕ) (x : PyNum) :
    (PyNum.roundTo p x).exp = 0 ∨ (PyNum.roundTo p x).num % 10 ≠ 0 := by
  unfold PyNum.roundTo
  by_cases h : x.exp ≤ p
  · rw [if_pos h]
    exact nrm_canon x
  · rw [if_neg h]
    exact nrm_canon _

theorem roundTo_fix (p : ℕ) (x : PyNum) (hc : x.exp = 0 ∨ x.num % 10 ≠ 0)
    (he : x.exp ≤ p) : PyNum.roundTo p x = x := by
  unfold PyNum.roundTo
  rw [if_pos he]
  exact nrm_of_canon x hc

theorem mul_canon (a b : PyNum) :
    (PyNum.mul a b).exp = 0 ∨ (PyNum.mul a b).num % 10 ≠ 0 :=
  nrm_canon _

theorem mul_exp_le (a b : PyNum) : (PyNum.mul a b).exp ≤ a.exp + b.exp :=
  nrmAux_exp_le _ _ _

theorem dropWhile_no (p : Char → Bool) (l : PyStr) (h : ∀ c ∈ l, p c = false) :
    l.dropWhile p = l := by
  cases l with
  | nil => rfl
  | cons c cs => simp [List.dropWhile_cons, h c (by simp)]

theorem pyStrip_of_no_ws (l : PyStr) (h : ∀ c ∈ l, isWsChar c = false) : pyStrip l = l := by
  unfold pyStrip
  rw [dropWhile_no _ _ h, dropWhile_no, List.reverse_reverse]
  intro c hc
  exact h c (by simpa using hc)

theorem safe_float_on_clean (l : PyStr) (hne : l ≠ [])
    (hall : ∀ c ∈ l, isDigitC c = true ∨ c = '.') :
    safe_float (some l) PyNum.zero 2
      = (match parseFloat l with
         | some r => PyNum.roundTo 2 r
         | none => PyNum.zero) := by
  have hfe : l.isEmpty = false := by
    cases l with
    | nil => exact absurd rfl hne
    | cons c cs => rfl
  have hfilter : l.filter (fun c => !(c == ',' || c == ' ' || c == '₹' || c == '$' || c == '€')) = l := by
    apply List.filter_eq_self.mpr
    intro c hc
    rcases hall c hc with h | h
    · have n1 : c ≠ ',' := by intro e; rw [e] at h; exact absurd h (by decide)
      have n2 : c ≠ ' ' := by intro e; rw [e] at h; exact absurd h (by decide)
      have n3 : c ≠ '₹' := by intro e; rw [e] at h; exact absurd h (by decide)
      have n4 : c ≠ '$' := by intro e; rw [e] at h; exact absurd h (by decide)
      have n5 : c ≠ '€' := by intro e; rw [e] at h; exact absurd h (by decide)
      simp [n1, n2, n3, n4, n5]
    · subst h
      decide
  have hstrip : pyStrip l = l := by
    apply pyStrip_of_no_ws
    intro c hc
    rcases hall c hc with h | h
    · unfold isDigitC at h
      unfold isWsChar
      simp only [Bool.and_eq_true, decide_eq_true_eq] at h
      simp only [Bool.or_eq_false_iff, beq_eq_false_iff_ne]
      omega
    · subst h
      decide
  simp only [safe_float, hfe, Bool.false_eq_true, if_false, hfilter, hstrip]

/-- Claim C7 counterexample: on `"1.004"` the code first rounds the parsed
value to two decimals (giving `1.0`), then applies the `(0, 1]` test and the
factor-100 scaling to that rounded value, returning `100.0`; the claim's
reading (test the parsed value itself) returns `1.0`. -/
theorem claim_C7_counterexample :
    extract_tax_rate (some "1.004".toList) = PyNum.ofInt 100
    ∧ extract_tax_rate_claim (some "1.004".toList) = PyNum.ofInt 1
    ∧ PyNum.ofInt 100 ≠ PyNum.ofInt 1 :=
  ⟨by decide, by decide, by decide⟩

/-- Claim C7 (amended): `extract_tax_rate` strips every character that is not
a digit or a dot, rounds the parsed value to 2 decimals (via `safe_float`'s
default precision), and if that rounded value lies in `(0, 1]` multiplies it
by 100; an absent or unparsable input yields `0.0`.  The concrete examples of
the claim hold: `"0.18" ↦ 18.0`, `"18%" ↦ 18.0`, `None ↦ 0.0`. -/
theorem claim_C7_amended (t : Option PyStr) :
    extract_tax_rate t = extract_tax_rate_amended t
    ∧ extract_tax_rate (some "0.18".toList) = PyNum.ofInt 18
    ∧ extract_tax_rate (some "18%".toList) = PyNum.ofInt 18
    ∧ extract_tax_rate none = PyNum.zero := by
  refine ⟨?_, by decide, by decide, rfl⟩
  simp only [extract_tax_rate, extract_tax_rate_amended]
  by_cases ht : truthy t = false
  · rw [if_pos ht, if_pos ht]
  · rw [if_neg ht, if_neg ht]
    set cl := (pyStrip (t.getD [])).filter (fun c => isDigitC c || c == '.') with hcl
    by_cases hc : cl.isEmpty = true
    · rw [if_pos hc, if_pos hc]
    · rw [if_neg hc, if_neg hc]
      have hne : cl ≠ [] := by
        intro e
        rw [e] at hc
        simp at hc
      have hall : ∀ c ∈ cl, isDigitC c = true ∨ c = '.' := by
        intro c hcm
        rw [hcl] at hcm
        have hpred := List.of_mem_filter hcm
        rcases Bool.or_eq_true_iff.mp hpred with h | h
        · exact Or.inl h
        · exact Or.inr (by simpa using h)
      rw [safe_float_on_clean cl hne hall]
      cases hp : parseFloat cl with
      | none => decide
      | some v =>
        simp only []
        by_cases hP :
            (PyNum.lt PyNum.zero (PyNum.roundTo 2 v) &&
              PyNum.le (PyNum.roundTo 2 v) (PyNum.ofInt 1)) = true
        · rw [if_pos hP]
          refine roundTo_fix 2 _ (mul_canon _ _) ?_
          refine le_trans (mul_exp_le _ _) ?_
          have h2 := roundTo_exp_le 2 v
          simp only [PyNum.ofInt]
          omega
        · rw [if_neg hP]
          exact roundTo_fix 2 _ (roundTo_canon 2 v) (roundTo_exp_le 2 v)

theorem grn_lines_loop_length (env : Env) (gr : UUID) (gi : PyStr) (eff : PyDate)
    (info : List ItemInfo) :
    ∀ (st : SessionState) (idx : ℕ) (ls : List InvoiceLine),
      ((grn_lines_loop env gr gi eff info st idx ls).1).length = ls.length := by
  intro st idx ls
  induction ls generalizing st idx with
  | nil => rfl
  | cons l rest ih => simp [grn_lines_loop, ih]

/-- Claim C3 counterexample: a document whose header and first line lack a
`po_number` but whose second line carries one still maps to `po_header = none`
— the fallback consults only the first line, not "any line". -/
theorem claim_C3_counterexample :
    (map_to_database_models env0 st0 doc3).po_header = none
    ∧ doc3.dynamic.any (fun l => truthy l.po_number) = true :=
  ⟨by decide, by decide⟩

/-- Claim C3 (amended): `po_header` is absent exactly when no PO number is
resolvable from the header or from the *first* line (later lines are never
consulted: the extraction is unchanged by dropping them); a document with no
resolvable PO number yields no PO lines and no PO conditions; when a PO
number is resolved, the header's `s_po_number` is that input value, never
synthesized; and a GRN is always built with one GRN line per input line. -/
theorem claim_C3_amended (env : Env) (st : SessionState) (input : OCRInput) :
    ((map_to_database_models env st input).po_header = none
        ↔ extract_po_number input.static input.dynamic = none)
    ∧ extract_po_number input.static input.dynamic
        = extract_po_number input.static (input.dynamic.take 1)
    ∧ (extract_po_number input.static input.dynamic = none →
        (map_to_database_models env st input).po_lines = []
        ∧ (map_to_database_models env st input).po_conditions = [])
    ∧ (∀ p, extract_po_number input.static input.dynamic = some p →
        ∃ hdr, (map_to_database_models env st input).po_header = some hdr
          ∧ hdr.s_po_number = p)
    ∧ (map_to_database_models env st input).grn_lines.length = input.dynamic.length := by
  have htake : extract_po_number input.static input.dynamic
      = extract_po_number input.static (input.dynamic.take 1) := by
    unfold extract_po_number
    cases input.dynamic with
    | nil => rfl
    | cons l ls => rfl
  cases hpo : extract_po_number input.static input.dynamic with
  | none =>
    rw [hpo] at htake
    refine ⟨?_, htake, fun _ => ⟨?_, ?_⟩, fun p hp => absurd hp (by simp), ?_⟩
    · simp [map_to_database_models, hpo, map_finish]
    · simp [map_to_database_models, hpo, map_finish]
    · simp [map_to_database_models, hpo, map_finish]
    · simp [map_to_database_models, hpo, map_finish, grn_lines_loop_length]
  | some p =>
    rw [hpo] at htake
    refine ⟨?_, htake, fun hn => absurd hn (by simp), fun q hq => ?_, ?_⟩
    · simp [map_to_database_models, hpo, map_finish]
    · have hpq : p = q := by
        simpa using hq
      subst hpq
      simp only [map_to_database_models, hpo, map_finish]
      refine ⟨_, rfl, ?_⟩
      simp [create_po_header]
    · simp [map_to_database_models, hpo, map_finish, grn_lines_loop_length]

/-- Witness for the amended C3: the two-line PO document resolves its header
PO number and the mapped header carries it verbatim. -/
theorem claim_C3_amended_witness :
    ∃ hdr, (map_to_database_models env0 st0 doc5).po_header = some hdr
      ∧ hdr.s_po_number = "9500877232".toList :=
  (claim_C3_amended env0 st0 doc5).2.2.2.1 "9500877232".toList (by decide)

theorem po_lines_loop_get (env : Env) (phid : UUID) (po_id : PyStr) (inv : PyDate) :
    ∀ (ls : List InvoiceLine) (st : SessionState) (idx k : ℕ)
      (h : k < ((po_lines_loop env phid po_id inv st idx ls).1).length),
      (((po_lines_loop env phid po_id inv st idx ls).1).get ⟨k, h⟩).s_line_number
          = PyNum.ofInt (((idx + k) * 10 : ℕ) : ℤ)
        ∧ (((po_lines_loop env phid po_id inv st idx ls).1).get ⟨k, h⟩).s_po_line_id
          = generate_po_line_id po_id (idx + k) := by
  intro ls
  induction ls with
  | nil =>
    intro st idx k h
    simp [po_lines_loop] at h
  | cons l rest ih =>
    intro st idx k h
    cases k with
    | zero =>
      constructor
      · simp [po_lines_loop, create_po_line]
      · simp [po_lines_loop, create_po_line]
    | succ k2 =>
      have harith : idx + 1 + k2 = idx + (k2 + 1) := by omega
      have h2 : k2 < ((po_lines_loop env phid po_id inv
          (create_po_line env
            (resolve_item_ref env st
              ((pyOr l.description (some "UNKNOWN".toList)).getD "UNKNOWN".toList)
              (some (extract_hsn_code l.hsn_number))).2
            phid po_id idx l inv inv
            (resolve_item_ref env st
              ((pyOr l.description (some "UNKNOWN".toList)).getD "UNKNOWN".toList)
              (some (extract_hsn_code l.hsn_number))).1
            (extract_hsn_code l.hsn_number) (normalize_uom l.unit)).2
          (idx + 1) rest).1).length := by
        have hlen := h
        simp only [po_lines_loop, List.length_cons] at hlen
        omega
      have hih := ih _ (idx + 1) k2 h2
      rw [harith] at hih
      constructor
      · have hgoal := hih.1
        simp only [po_lines_loop, List.get_cons_succ]
        exact hgoal
      · have hgoal := hih.2
        simp only [po_lines_loop, List.get_cons_succ]
        exact hgoal

theorem map_po_lines_shape (env : Env) (st : SessionState) (input : OCRInput) (p : PyStr)
    (hp : extract_po_number input.static input.dynamic = some p) :
    ∃ phid st5, (map_to_database_models env st input).po_lines
      = (po_lines_loop env phid (generate_po_id env p)
          (extract_invoice_date env input.static) st5 1 input.dynamic).1 := by
  simp only [map_to_database_models, hp, map_finish]
  exact ⟨_, _, rfl⟩

/-- Claim C10: the PO line built from 1-based input index `i` stores
`s_line_number = float(i * 10)` while its `s_po_line_id` is
`{po_base}-{i:05d}` with the unscaled index — the stored line number and the
index embedded in the identifier differ by the factor 10. -/
theorem claim_C10 (env : Env) (st : SessionState) (input : OCRInput) (p : PyStr)
    (hp : extract_po_number input.static input.dynamic = some p)
    (i : ℕ) (pl : POLine)
    (hg : ((map_to_database_models env st input).po_lines).get? i = some pl) :
    pl.s_line_number = PyNum.ofInt (((i + 1) * 10 : ℕ) : ℤ)
    ∧ pl.s_po_line_id
        = (generate_po_id env p).takeWhile (fun c => c != '-') ++ '-' :: fmtNat 5 (i + 1) := by
  obtain ⟨phid, st5, heq⟩ := map_po_lines_shape env st input p hp
  rw [heq] at hg
  obtain ⟨h, hget⟩ := List.get?_eq_some.mp hg
  have hmain := po_lines_loop_get env phid (generate_po_id env p)
    (extract_invoice_date env input.static) input.dynamic st5 1 i h
  rw [hget] at hmain
  have harith : 1 + i = i + 1 := by omega
  rw [harith] at hmain
  refine ⟨hmain.1, ?_⟩
  rw [hmain.2]
  rfl

/-- Witness for C10: the first PO line of the two-line PO document stores
line number `10.0`. -/
theorem claim_C10_witness :
    ∃ pl, ((map_to_database_models env0 st0 doc5).po_lines).get? 0 = some pl
      ∧ pl.s_line_number = PyNum.ofInt 10 := by
  cases hg : ((map_to_database_models env0 st0 doc5).po_lines).get? 0 with
  | none =>
    exfalso
    have hlen : 0 < ((map_to_database_models env0 st0 doc5).po_lines).length := by decide
    have := List.get?_eq_none.mp hg
    omega
  | some pl =>
    exact ⟨pl, rfl, (claim_C10 env0 st0 doc5 "9500877232".toList (by decide) 0 pl hg).1⟩

theorem dedup_notin_seen : ∀ (l : List POCondition) (seen : List (PyStr × PyNum))
    (c : POCondition), c ∈ dedup_conditions l seen → condKey c ∉ seen := by
  intro l
  induction l with
  | nil => intro seen c hc; simp [dedup_conditions] at hc
  | cons a cs ih =>
    intro seen c hc
    unfold dedup_conditions at hc
    by_cases ha : condKey a ∈ seen
    · rw [if_pos ha] at hc
      exact ih seen c hc
    · rw [if_neg ha] at hc
      rcases List.mem_cons.mp hc with h | h
      · subst h
        exact ha
      · have := ih _ c h
        intro hmem
        exact this (List.mem_cons_of_mem _ hmem)

theorem dedup_pairwise : ∀ (l : List POCondition) (seen : List (PyStr × PyNum)),
    (dedup_conditions l seen).Pairwise (fun a b => condKey a ≠ condKey b) := by
  intro l
  induction l with
  | nil => intro seen; simp [dedup_conditions]
  | cons a cs ih =>
    intro seen
    unfold dedup_conditions
    by_cases ha : condKey a ∈ seen
    · rw [if_pos ha]
      exact ih seen
    · rw [if_neg ha]
      refine List.Pairwise.cons ?_ (ih _)
      intro b hb
      have := dedup_notin_seen cs _ b hb
      intro he
      exact this (by rw [← he]; exact List.mem_cons_self _ _)

theorem dedup_sublist : ∀ (l : List POCondition) (seen : List (PyStr × PyNum)),
    List.Sublist (dedup_conditions l seen) l := by
  intro l
  induction l with
  | nil => intro seen; simp [dedup_conditions]
  | cons a cs ih =>
    intro seen
    unfold dedup_conditions
    by_cases ha : condKey a ∈ seen
    · rw [if_pos ha]
      exact List.Sublist.cons a (ih seen)
    · rw [if_neg ha]
      exact List.Sublist.cons₂ a (ih _)

theorem dedup_key_covered : ∀ (l : List POCondition) (seen : List (PyStr × PyNum))
    (c : POCondition), c ∈ l →
    condKey c ∈ seen ∨ ∃ c2 ∈ dedup_conditions l seen, condKey c2 = condKey c := by
  intro l
  induction l with
  | nil => intro seen c hc; simp at hc
  | cons a cs ih =>
    intro seen c hc
    unfold dedup_conditions
    by_cases ha : condKey a ∈ seen
    · rw [if_pos ha]
      rcases List.mem_cons.mp hc with h | h
      · subst h
        exact Or.inl ha
      · exact ih seen c h
    · rw [if_neg ha]
      rcases List.mem_cons.mp hc with h | h
      · subst h
        exact Or.inr ⟨c, List.mem_cons_self _ _, rfl⟩
      · rcases ih (condKey a :: seen) c h with hs | ⟨c2, hc2, he⟩
        · rcases List.mem_cons.mp hs with he2 | he2
          · exact Or.inr ⟨a, List.mem_cons_self _ _, he2.symm⟩
          · exact Or.inl he2
        · exact Or.inr ⟨c2, List.mem_cons_of_mem _ hc2, he⟩

theorem dedup_first_occ : ∀ (l : List POCondition) (seen : List (PyStr × PyNum))
    (c : POCondition), c ∈ dedup_conditions l seen →
    ∃ l1 l2, l = l1 ++ c :: l2
      ∧ ∀ b ∈ l1, condKey b ≠ condKey c ∨ condKey b ∈ seen := by
  intro l
  induction l with
  | nil => intro seen c hc; simp [dedup_conditions] at hc
  | cons a cs ih =>
    intro seen c hc
    unfold dedup_conditions at hc
    by_cases ha : condKey a ∈ seen
    · rw [if_pos ha] at hc
      obtain ⟨l1, l2, heq, hall⟩ := ih seen c hc
      refine ⟨a :: l1, l2, by rw [heq]; rfl, ?_⟩
      intro b hb
      rcases List.mem_cons.mp hb with h | h
      · subst h
        exact Or.inr ha
      · exact hall b h
    · rw [if_neg ha] at hc
      rcases List.mem_cons.mp hc with h | h
      · subst h
        exact ⟨[], cs, rfl, by simp⟩
      · have hnot := dedup_notin_seen cs (condKey a :: seen) c h
        have hne : condKey a ≠ condKey c := by
          intro he
          exact hnot (by rw [← he]; exact List.mem_cons_self _ _)
        obtain ⟨l1, l2, heq, hall⟩ := ih _ c h
        refine ⟨a :: l1, l2, by rw [heq]; rfl, ?_⟩
        intro b hb
        rcases List.mem_cons.mp hb with hx | hx
        · subst hx
          exact Or.inl hne
        · rcases hall b hx with hy | hy
          · exact Or.inl hy
          · rcases List.mem_cons.mp hy with hz | hz
            · rw [hz]
              exact Or.inl hne
            · exact Or.inr hz

theorem dedup_all_seen : ∀ (l : List POCondition) (seen : List (PyStr × PyNum)),
    (∀ b ∈ l, condKey b ∈ seen) → dedup_conditions l seen = [] := by
  intro l
  induction l with
  | nil => intro seen _; rfl
  | cons a cs ih =>
    intro seen hall
    unfold dedup_conditions
    rw [if_pos (hall a (List.mem_cons_self _ _))]
    exact ih seen (fun b hb => hall b (List.mem_cons_of_mem _ hb))

theorem add_condition_key (env : Env) (st : SessionState) (phid : UUID) (po_id ty : PyStr)
    (rs : Option PyStr) (eff : PyDate) :
    ∀ c ∈ (add_condition env st phid po_id ty rs eff).1,
      condKey c = (ty, extract_tax_rate rs) := by
  intro c hc
  simp only [add_condition] at hc
  by_cases h1 : truthy rs = false
  · rw [if_pos h1] at hc
    simp at hc
  · rw [if_neg h1] at hc
    by_cases h2 : PyNum.lt PyNum.zero (extract_tax_rate rs) = true
    · rw [if_pos h2] at hc
      simp only [List.mem_singleton] at hc
      subst hc
      rfl
    · rw [if_neg h2] at hc
      simp at hc

theorem add_condition_ne_nil (env : Env) (st : SessionState) (phid : UUID) (po_id ty : PyStr)
    (rs : Option PyStr) (eff : PyDate) (h1 : truthy rs = true)
    (h2 : PyNum.lt PyNum.zero (extract_tax_rate rs) = true) :
    (add_condition env st phid po_id ty rs eff).1 ≠ [] := by
  simp only [add_condition]
  rw [if_neg (by rw [h1]; simp), if_pos h2]
  simp

theorem line_conditions_keys (env : Env) (phid : UUID) (po_id : PyStr) (eff : PyDate) :
    ∀ (ls : List InvoiceLine) (st : SessionState),
      (∀ l ∈ ls, l.igst_rate = some "18".toList ∧ l.cgst_rate = none ∧ l.sgst_rate = none) →
      ∀ c ∈ (line_conditions env phid po_id eff st ls).1,
        condKey c = ("IGST".toList, extract_tax_rate (some "18".toList)) := by
  intro ls
  induction ls with
  | nil =>
    intro st _ c hc
    simp [line_conditions] at hc
  | cons l rest ih =>
    intro st hall c hc
    obtain ⟨h1, h2, h3⟩ := hall l (List.mem_cons_self _ _)
    simp only [line_conditions, h1, h2, h3] at hc
    rw [if_pos (by decide), if_neg (by decide), if_neg (by decide)] at hc
    simp only [List.append_nil, List.nil_append, List.mem_append] at hc
    rcases hc with hc | hc
    · exact add_condition_key env st phid po_id _ _ eff c hc
    · exact ih _ (fun x hx => hall x (List.mem_cons_of_mem _ hx)) c hc

theorem scenario_conditions (env : Env) (phid : UUID) (po_id : PyStr) (eff : PyDate)
    (static : StaticData) (lines : List InvoiceLine) (st : SessionState)
    (higst : extract_first static.igst = some "18%".toList)
    (hcg : extract_first static.cgst = none)
    (hsg : extract_first static.sgst = none)
    (hl : ∀ l ∈ lines, l.igst_rate = some "18".toList ∧ l.cgst_rate = none ∧ l.sgst_rate = none) :
    ((create_po_conditions env st phid po_id static lines eff).1).map condKey
      = [("IGST".toList, (⟨18, 0⟩ : PyNum))] := by
  have hkey18 : extract_tax_rate (some "18%".toList) = (⟨18, 0⟩ : PyNum) := by decide
  have hkey18b : extract_tax_rate (some "18".toList) = (⟨18, 0⟩ : PyNum) := by decide
  have hres : (create_po_conditions env st phid po_id static lines eff).1
      = dedup_conditions ((create_po_conditions_raw env st phid po_id static lines eff).1) [] := rfl
  have hraw : (create_po_conditions_raw env st phid po_id static lines eff).1
      = (add_condition env st phid po_id "IGST".toList (extract_first static.igst) eff).1
        ++ (add_condition env _ phid po_id "CGST".toList (extract_first static.cgst) eff).1
        ++ (add_condition env _ phid po_id "SGST".toList (extract_first static.sgst) eff).1
        ++ (line_conditions env phid po_id eff _ lines).1 := rfl
  -- every raw element has the IGST-18 key
  have hallkey : ∀ c ∈ (create_po_conditions_raw env st phid po_id static lines eff).1,
      condKey c = ("IGST".toList, (⟨18, 0⟩ : PyNum)) := by
    intro c hc
    rw [hraw] at hc
    simp only [List.mem_append] at hc
    rcases hc with ((hc | hc) | hc) | hc
    · have := add_condition_key env st phid po_id _ _ eff c hc
      rw [higst, hkey18] at this
      exact this
    · rw [hcg] at hc
      simp [add_condition, truthy] at hc
    · rw [hsg] at hc
      simp [add_condition, truthy] at hc
    · have := line_conditions_keys env phid po_id eff lines _ hl c hc
      rw [hkey18b] at this
      exact this
  -- the raw list is non-empty (the header IGST condition is created)
  have hne : ∃ c0, c0 ∈ (create_po_conditions_raw env st phid po_id static lines eff).1 := by
    have h0 : (add_condition env st phid po_id "IGST".toList (extract_first static.igst) eff).1
        ≠ [] := by
      rw [higst]
      exact add_condition_ne_nil env st phid po_id _ _ eff (by decide) (by decide)
    rcases hx : (add_condition env st phid po_id "IGST".toList (extract_first static.igst) eff).1
      with _ | ⟨c0, cs⟩
    · exact absurd hx h0
    · refine ⟨c0, ?_⟩
      rw [hraw]
      refine List.mem_append.mpr (Or.inl ?_)
      refine List.mem_append.mpr (Or.inl ?_)
      refine List.mem_append.mpr (Or.inl ?_)
      rw [hx]
      exact List.mem_cons_self _ _
  -- hence the deduplicated list contains exactly one key
  obtain ⟨c0, hc0⟩ := hne
  have hcov := dedup_key_covered _ [] c0 hc0
  rcases hcov with hfalse | ⟨c2, hc2, hkey2⟩
  · simp at hfalse
  have hpw := dedup_pairwise ((create_po_conditions_raw env st phid po_id static lines eff).1) []
  have hsub := dedup_sublist ((create_po_conditions_raw env st phid po_id static lines eff).1) []
  have hallres : ∀ c ∈ dedup_conditions
      ((create_po_conditions_raw env st phid po_id static lines eff).1) [],
      condKey c = ("IGST".toList, (⟨18, 0⟩ : PyNum)) :=
    fun c hc => hallkey c (hsub.mem hc)
  rw [hres]
  rcases hd : dedup_conditions ((create_po_conditions_raw env st phid po_id static lines eff).1) []
    with _ | ⟨x, xs⟩
  · rw [hd] at hc2
    simp at hc2
  · rcases xs with _ | ⟨y, ys⟩
    · have := hallres x (by rw [hd]; exact List.mem_cons_self _ _)
      simp [this]
    · exfalso
      rw [hd] at hpw
      have hxy := (List.pairwise_cons.mp hpw).1 y (List.mem_cons_self _ _)
      have hx := hallres x (by rw [hd]; exact List.mem_cons_self _ _)
      have hy := hallres y (by rw [hd]; exact List.mem_cons_of_mem _ (List.mem_cons_self _ _))
      rw [hx, hy] at hxy
      exact hxy rfl

theorem map_po_conditions_shape (env : Env) (st : SessionState) (input : OCRInput) (p : PyStr)
    (hp : extract_po_number input.static input.dynamic = some p) :
    ∃ phid st6,
      (map_to_database_models env st input).po_conditions
        = (create_po_conditions env st6 phid (generate_po_id env p) input.static input.dynamic
            (extract_invoice_date env input.static)).1 := by
  simp only [map_to_database_models, hp, map_finish, create_po_header]
  exact ⟨_, _, rfl⟩

/-- Claim C5: the PO-condition list carries at most one condition per
distinct `(condition_type, rate)` pair; it is a sublist of the raw
build-order list (header IGST, CGST, SGST, then each line's rates), every
raw key is represented, each kept condition is the first occurrence of its
key in that order, and a document stating IGST 18% in the header and on
every line yields exactly one IGST condition with rate 18.0. -/
theorem claim_C5 (env : Env) (st : SessionState) (phid : UUID) (po_id : PyStr)
    (static : StaticData) (lines : List InvoiceLine) (eff : PyDate) (input : OCRInput) :
    ((create_po_conditions env st phid po_id static lines eff).1).Pairwise
        (fun a b => condKey a ≠ condKey b)
    ∧ List.Sublist ((create_po_conditions env st phid po_id static lines eff).1)
        ((create_po_conditions_raw env st phid po_id static lines eff).1)
    ∧ (∀ c ∈ (create_po_conditions_raw env st phid po_id static lines eff).1,
        ∃ c2 ∈ (create_po_conditions env st phid po_id static lines eff).1,
          condKey c2 = condKey c)
    ∧ (∀ c ∈ (create_po_conditions env st phid po_id static lines eff).1,
        ∃ l1 l2, (create_po_conditions_raw env st phid po_id static lines eff).1 = l1 ++ c :: l2
          ∧ ∀ b ∈ l1, condKey b ≠ condKey c)
    ∧ ((map_to_database_models env st input).po_conditions).Pairwise
        (fun a b => condKey a ≠ condKey b)
    ∧ (∀ p, extract_po_number input.static input.dynamic = some p →
        extract_first input.static.igst = some "18%".toList →
        extract_first input.static.cgst = none →
        extract_first input.static.sgst = none →
        (∀ l ∈ input.dynamic,
          l.igst_rate = some "18".toList ∧ l.cgst_rate = none ∧ l.sgst_rate = none) →
        ((map_to_database_models env st input).po_conditions).map condKey
          = [("IGST".toList, (⟨18, 0⟩ : PyNum))]) := by
  refine ⟨dedup_pairwise _ _, dedup_sublist _ _, ?_, ?_, ?_, ?_⟩
  · intro c hc
    rcases dedup_key_covered _ [] c hc with hfalse | ⟨c2, hc2, hk⟩
    · simp at hfalse
    · exact ⟨c2, hc2, hk⟩
  · intro c hc
    obtain ⟨l1, l2, heq, hall⟩ := dedup_first_occ _ [] c hc
    refine ⟨l1, l2, heq, fun b hb => ?_⟩
    rcases hall b hb with h | h
    · exact h
    · simp at h
  · cases hpo : extract_po_number input.static input.dynamic with
    | none =>
      suffices hh : (map_to_database_models env st input).po_conditions = [] by
        rw [hh]
        simp
      simp [map_to_database_models, hpo, map_finish]
    | some p =>
      obtain ⟨phid2, st6, heq⟩ := map_po_conditions_shape env st input p hpo
      rw [heq]
      exact dedup_pairwise _ _
  · intro p hp higst hcg hsg hl
    obtain ⟨phid2, st6, heq⟩ := map_po_conditions_shape env st input p hp
    rw [heq]
    exact scenario_conditions env phid2 (generate_po_id env p)
      (extract_invoice_date env input.static) input.static input.dynamic st6 higst hcg hsg hl

/-- Witness for C5: the two-line IGST document maps to exactly one
PO condition, of type IGST with rate 18.0. -/
theorem claim_C5_witness :
    ((map_to_database_models env0 st0 doc5).po_conditions).map condKey
      = [("IGST".toList, (⟨18, 0⟩ : PyNum))] :=
  (claim_C5 env0 st0 0 [] staticNone [] env0.today doc5).2.2.2.2.2 "9500877232".toList
    (by decide) (by decide) (by decide) (by decide) (by decide)

theorem foldl_digits (l : PyStr) : ∀ a : ℕ,
    l.foldl (fun x c => 10 * x + charVal c) a = a * 10 ^ l.length + charsToNat l := by
  induction l with
  | nil => intro a; simp [charsToNat]
  | cons c cs ih =>
    intro a
    unfold charsToNat
    simp only [List.foldl_cons, List.length_cons]
    rw [ih (10 * a + charVal c), ih (10 * 0 + charVal c)]
    ring

theorem charsToNat_append (l1 l2 : PyStr) :
    charsToNat (l1 ++ l2) = charsToNat l1 * 10 ^ l2.length + charsToNat l2 := by
  unfold charsToNat
  rw [List.foldl_append]
  exact foldl_digits l2 _

theorem charVal_digitChar (d : ℕ) (h : d < 10) : charVal (digitChar d) = d := by
  interval_cases d <;> decide

theorem isDigitC_digitChar (d : ℕ) (h : d < 10) : isDigitC (digitChar d) = true := by
  interval_cases d <;> decide

theorem charsToNat_single (c : Char) : charsToNat [c] = charVal c := by
  unfold charsToNat
  simp

theorem charsToNat_natToCharsAux : ∀ (fuel n : ℕ), n ≤ fuel →
    charsToNat (natToCharsAux fuel n) = n := by
  intro fuel
  induction fuel with
  | zero =>
    intro n h
    have : n = 0 := by omega
    simp [natToCharsAux, charsToNat, this]
  | succ f ih =>
    intro n h
    unfold natToCharsAux
    by_cases h0 : n = 0
    · simp [h0, charsToNat]
    · rw [if_neg h0, charsToNat_append, charsToNat_single,
        charVal_digitChar _ (Nat.mod_lt _ (by omega)), ih (n / 10) (by omega)]
      have := Nat.div_add_mod n 10
      simp only [List.length_cons, List.length_nil, pow_one]
      omega

theorem charsToNat_natToChars (n : ℕ) : charsToNat (natToChars n) = n := by
  unfold natToChars
  by_cases h0 : n = 0
  · simp [h0]
    decide
  · rw [if_neg h0]
    exact charsToNat_natToCharsAux n n le_rfl

theorem natToCharsAux_len : ∀ (fuel n k : ℕ), n ≤ fuel → n < 10 ^ k →
    (natToCharsAux fuel n).length ≤ k := by
  intro fuel
  induction fuel with
  | zero =>
    intro n k h hk
    simp [natToCharsAux]
  | succ f ih =>
    intro n k h hk
    unfold natToCharsAux
    by_cases h0 : n = 0
    · simp [h0]
    · rw [if_neg h0]
      have hk1 : 1 ≤ k := by
        rcases Nat.eq_zero_or_pos k with hz | hp
        · rw [hz] at hk
          simp at hk
          exact absurd hk h0
        · omega
      have hdiv : n / 10 < 10 ^ (k - 1) := by
        have hp : 10 ^ k = 10 ^ (k - 1) * 10 := by
          rw [← pow_succ]
          congr 1
          omega
        rw [Nat.div_lt_iff_lt_mul (by norm_num)]
        omega
      have := ih (n / 10) (k - 1) (by omega) hdiv
      simp only [List.length_append, List.length_cons, List.length_nil]
      omega

theorem natToChars_len (n k : ℕ) (h : n < 10 ^ k) (hk : 1 ≤ k) :
    (natToChars n).length ≤ k := by
  unfold natToChars
  by_cases h0 : n = 0
  · rw [if_pos h0]
    simpa using hk
  · rw [if_neg h0]
    exact natToCharsAux_len n n k le_rfl h

theorem natToCharsAux_digits : ∀ (fuel n : ℕ), ∀ c ∈ natToCharsAux fuel n,
    isDigitC c = true := by
  intro fuel
  induction fuel with
  | zero => intro n c hc; simp [natToCharsAux] at hc
  | succ f ih =>
    intro n c hc
    unfold natToCharsAux at hc
    by_cases h0 : n = 0
    · rw [if_pos h0] at hc
      simp at hc
    · rw [if_neg h0] at hc
      rcases List.mem_append.mp hc with h1 | h1
      · exact ih (n / 10) c h1
      · have : c = digitChar (n % 10) := by simpa using h1
        rw [this]
        exact isDigitC_digitChar _ (Nat.mod_lt _ (by omega))

theorem natToChars_digits (n : ℕ) : ∀ c ∈ natToChars n, isDigitC c = true := by
  intro c hc
  unfold natToChars at hc
  by_cases h0 : n = 0
  · rw [if_pos h0] at hc
    have : c = '0' := by simpa using hc
    rw [this]
    decide
  · rw [if_neg h0] at hc
    exact natToCharsAux_digits n n c hc

theorem natToChars_ne_nil (n : ℕ) : natToChars n ≠ [] := by
  unfold natToChars
  by_cases h0 : n = 0
  · rw [if_pos h0]
    simp
  · rw [if_neg h0]
    cases hn : n with
    | zero => exact absurd hn h0
    | succ m =>
      unfold natToCharsAux
      simp

theorem charsToNat_replicate_zero (k : ℕ) : charsToNat (List.replicate k '0') = 0 := by
  induction k with
  | zero => rfl
  | succ m ih =>
    rw [List.replicate_succ]
    unfold charsToNat at ih ⊢
    simp only [List.foldl_cons]
    have hz : (10 * 0 + charVal '0') = 0 := by decide
    rw [hz]
    exact ih

theorem charsToNat_zfill (w : ℕ) (l : PyStr) : charsToNat (zfill w l) = charsToNat l := by
  unfold zfill
  rw [charsToNat_append, charsToNat_replicate_zero]
  simp

theorem zfill_length (w : ℕ) (l : PyStr) (h : l.length ≤ w) : (zfill w l).length = w := by
  simp [zfill]
  omega

theorem zfill_digits (w : ℕ) (l : PyStr) (h : ∀ c ∈ l, isDigitC c = true) :
    ∀ c ∈ zfill w l, isDigitC c = true := by
  intro c hc
  rcases List.mem_append.mp hc with h1 | h1
  · have := List.eq_of_mem_replicate h1
    rw [this]
    decide
  · exact h c h1

theorem zfill_ne_nil (w : ℕ) (l : PyStr) (h : l ≠ []) : zfill w l ≠ [] := by
  unfold zfill
  intro he
  rcases List.append_eq_nil.mp he with ⟨_, h2⟩
  exact h h2

theorem charsToNat_fmtNat (w n : ℕ) : charsToNat (fmtNat w n) = n :=
  (charsToNat_zfill _ _).trans (charsToNat_natToChars n)

theorem fmtNat_length (w n : ℕ) (h : n < 10 ^ w) (hw : 1 ≤ w) : (fmtNat w n).length = w :=
  zfill_length _ _ (natToChars_len n w h hw)

theorem fmtNat_digits (w n : ℕ) : ∀ c ∈ fmtNat w n, isDigitC c = true :=
  zfill_digits _ _ (natToChars_digits n)

theorem fmtNat_ne_nil (w n : ℕ) : fmtNat w n ≠ [] :=
  zfill_ne_nil _ _ (natToChars_ne_nil n)

theorem splitOnChar_no_sep (sep : Char) : ∀ (l : PyStr), sep ∉ l → splitOnChar sep l = [l] := by
  intro l
  induction l with
  | nil => intro _; rfl
  | cons c cs ih =>
    intro h
    have hc : ¬(c = sep) := by
      intro e
      exact h (by rw [e]; exact List.mem_cons_self _ _)
    unfold splitOnChar
    rw [if_neg hc, ih (fun hm => h (List.mem_cons_of_mem _ hm))]

theorem splitOnChar_append (sep : Char) : ∀ (l1 l2 : PyStr), sep ∉ l1 →
    splitOnChar sep (l1 ++ sep :: l2) = l1 :: splitOnChar sep l2 := by
  intro l1
  induction l1 with
  | nil =>
    intro l2 _
    show splitOnChar sep (sep :: l2) = [] :: splitOnChar sep l2
    conv_lhs => rw [splitOnChar]
    rw [if_pos rfl]
  | cons c cs ih =>
    intro l2 h
    have hc : ¬(c = sep) := by
      intro e
      exact h (by rw [e]; exact List.mem_cons_self _ _)
    show splitOnChar sep (c :: (cs ++ sep :: l2)) = (c :: cs) :: splitOnChar sep l2
    conv_lhs => rw [splitOnChar]
    rw [if_neg hc, ih l2 (fun hm => h (List.mem_cons_of_mem _ hm))]

theorem not_mem_digits (l : PyStr) (hall : ∀ c ∈ l, isDigitC c = true) (sep : Char)
    (hs : isDigitC sep = false) : sep ∉ l := by
  intro h
  rw [hall sep h] at hs
  exact Bool.true_eq_false.mp hs |>.elim

theorem parseNumField_fmtNat2 (maxv d : ℕ) (h1 : 1 ≤ d) (h2 : d ≤ maxv) (h3 : d ≤ 99) :
    parseNumField maxv (fmtNat 2 d) = some d := by
  have hlen : (fmtNat 2 d).length = 2 := fmtNat_length 2 d (by omega) (by omega)
  have hcond : (fmtNat 2 d) ≠ [] ∧ (fmtNat 2 d).length ≤ 2 ∧ (fmtNat 2 d).all isDigitC = true :=
    ⟨fmtNat_ne_nil 2 d, by omega, List.all_eq_true.mpr (fun c hc => fmtNat_digits 2 d c hc)⟩
  unfold parseNumField
  rw [if_pos hcond]
  simp only [charsToNat_fmtNat]
  rw [if_pos ⟨h1, h2⟩]

theorem parseNumField_long (maxv : ℕ) (p : PyStr) (h : 2 < p.length) :
    parseNumField maxv p = none := by
  unfold parseNumField
  rw [if_neg]
  rintro ⟨_, h2, _⟩
  omega

theorem parseNumField_big (maxv : ℕ) (p : PyStr) (h : maxv < charsToNat p) :
    parseNumField maxv p = none := by
  unfold parseNumField
  by_cases hc : p ≠ [] ∧ p.length ≤ 2 ∧ p.all isDigitC = true
  · rw [if_pos hc, if_neg]
    rintro ⟨_, h2⟩
    omega
  · rw [if_neg hc]

theorem parseYear4_fmtNat (y : ℕ) (h : y ≤ 9999) : parseYear4 (fmtNat 4 y) = some y := by
  have hlen : (fmtNat 4 y).length = 4 := fmtNat_length 4 y (by omega) (by omega)
  unfold parseYear4
  rw [if_pos ⟨hlen, List.all_eq_true.mpr (fun c hc => fmtNat_digits 4 y c hc)⟩,
    charsToNat_fmtNat]

theorem parseYear4_len (p : PyStr) (h : p.length ≠ 4) : parseYear4 p = none := by
  unfold parseYear4
  rw [if_neg]
  rintro ⟨h1, _⟩
  exact h h1

theorem alookup_key_len : ∀ (tbl : List (PyStr × ℕ)), (∀ kv ∈ tbl, kv.1.length = 3) →
    ∀ (q : PyStr), q.length ≠ 3 → alookup q tbl = none := by
  intro tbl
  induction tbl with
  | nil => intro _ q _; rfl
  | cons kv rest ih =>
    intro hall q hq
    obtain ⟨k, v⟩ := kv
    unfold alookup
    rw [if_neg]
    · exact ih (fun x hx => hall x (List.mem_cons_of_mem _ hx)) q hq
    · intro e
      have := hall (k, v) (List.mem_cons_self _ _)
      simp only at this
      rw [e] at hq
      exact hq this

theorem parseMonthAbb_ok (m : ℕ) (h1 : 1 ≤ m) (h2 : m ≤ 12) :
    parseMonthAbb (monthAbb m) = some m := by
  interval_cases m <;> decide

theorem parseMonthAbb_len (p : PyStr) (h : p.length ≠ 3) : parseMonthAbb p = none := by
  unfold parseMonthAbb
  apply alookup_key_len
  · decide
  · unfold lowcase
    rw [List.length_map]
    exact h

theorem monthAbb_not_dash (m : ℕ) (h1 : 1 ≤ m) (h2 : m ≤ 12) : '-' ∉ monthAbb m := by
  interval_cases m <;> decide

theorem monthAbb_no_ws (m : ℕ) (h1 : 1 ≤ m) (h2 : m ≤ 12) :
    ∀ c ∈ monthAbb m, isWsChar c = false := by
  interval_cases m <;> decide

theorem monthAbb_len3 (m : ℕ) (h1 : 1 ≤ m) (h2 : m ≤ 12) : (monthAbb m).length = 3 := by
  interval_cases m <;> decide

theorem daysInMonth_le31 (y m : ℕ) : daysInMonth y m ≤ 31 := by
  unfold daysInMonth
  split_ifs <;> omega

theorem daysInMonth_ge28 (y m : ℕ) : 28 ≤ daysInMonth y m := by
  unfold daysInMonth
  split_ifs <;> omega

theorem ws_of_digit (c : Char) (h : isDigitC c = true) : isWsChar c = false := by
  unfold isDigitC at h
  unfold isWsChar
  simp only [Bool.and_eq_true, decide_eq_true_eq] at h
  simp only [Bool.or_eq_false_iff, beq_eq_false_iff_ne]
  omega

theorem ws_free_three (a b c2 : PyStr) (sep : Char)
    (ha : ∀ x ∈ a, isWsChar x = false) (hb : ∀ x ∈ b, isWsChar x = false)
    (hc : ∀ x ∈ c2, isWsChar x = false) (hs : isWsChar sep = false) :
    ∀ x ∈ a ++ sep :: (b ++ sep :: c2), isWsChar x = false := by
  intro x hx
  rcases List.mem_append.mp hx with h | h
  · exact ha x h
  · rcases List.mem_cons.mp h with h | h
    · rw [h]; exact hs
    · rcases List.mem_append.mp h with h | h
      · exact hb x h
      · rcases List.mem_cons.mp h with h | h
        · rw [h]; exact hs
        · exact hc x h

theorem pyStrip_formatDate (fmt : DateFmt) (d : PyDate) (h : ValidDate d) :
    pyStrip (formatDate fmt d) = formatDate fmt d := by
  obtain ⟨_, _, hm1, hm2, _, _⟩ := h
  have hdig : ∀ (w n : ℕ), ∀ x ∈ fmtNat w n, isWsChar x = false :=
    fun w n x hx => ws_of_digit x (fmtNat_digits w n x hx)
  apply pyStrip_of_no_ws
  cases fmt
  · exact ws_free_three _ _ _ _ (hdig 2 d.day) (monthAbb_no_ws d.month hm1 hm2)
      (hdig 4 d.year) (by decide)
  · exact ws_free_three _ _ _ _ (hdig 2 d.day) (hdig 2 d.month) (hdig 4 d.year) (by decide)
  · exact ws_free_three _ _ _ _ (hdig 4 d.year) (hdig 2 d.month) (hdig 2 d.day) (by decide)
  · exact ws_free_three _ _ _ _ (hdig 2 d.day) (hdig 2 d.month) (hdig 4 d.year) (by decide)
  · exact ws_free_three _ _ _ _ (hdig 2 d.day) (hdig 2 d.month) (hdig 4 d.year) (by decide)
  · exact ws_free_three _ _ _ _ (hdig 2 d.month) (hdig 2 d.day) (hdig 4 d.year) (by decide)

theorem formatDate_ne_nil (fmt : DateFmt) (d : PyDate) : formatDate fmt d ≠ [] := by
  cases fmt <;>
    · intro he
      rcases List.append_eq_nil.mp he with ⟨h1, _⟩
      exact fmtNat_ne_nil _ _ h1

theorem split_fmt3 (sep : Char) (a b c2 : PyStr) (ha : sep ∉ a) (hb : sep ∉ b)
    (hc : sep ∉ c2) :
    splitOnChar sep (a ++ sep :: (b ++ sep :: c2)) = [a, b, c2] := by
  rw [splitOnChar_append sep a _ ha, splitOnChar_append sep b _ hb,
    splitOnChar_no_sep sep c2 hc]

theorem sep_not_mem_fmtNat (w n : ℕ) (sep : Char) (hs : isDigitC sep = false) :
    sep ∉ fmtNat w n :=
  not_mem_digits _ (fmtNat_digits w n) sep hs

theorem truthy_of_ne_nil (s : PyStr) (h : s ≠ []) : truthy (some s) = true := by
  unfold truthy
  cases s with
  | nil => exact absurd rfl h
  | cons c cs => rfl

theorem mkDate_valid (y m dd : ℕ)
    (h : 1 ≤ y ∧ y ≤ 9999 ∧ 1 ≤ m ∧ m ≤ 12 ∧ 1 ≤ dd ∧ dd ≤ daysInMonth y m) :
    mkDate y m dd = some ⟨y, m, dd⟩ := by
  unfold mkDate
  rw [if_pos h]

theorem not_mem_three (a b c2 : PyStr) (sep x : Char) (hx : x ≠ sep)
    (ha : x ∉ a) (hb : x ∉ b) (hc : x ∉ c2) : x ∉ a ++ sep :: (b ++ sep :: c2) := by
  intro h
  rcases List.mem_append.mp h with h | h
  · exact ha h
  · rcases List.mem_cons.mp h with h | h
    · exact hx h
    · rcases List.mem_append.mp h with h | h
      · exact hb h
      · rcases List.mem_cons.mp h with h | h
        · exact hx h
        · exact hc h

theorem pf_F1 (d : PyDate) (h : ValidDate d) :
    parseWithFmt .fmtDbY
      (fmtNat 2 d.day ++ '-' :: (monthAbb d.month ++ '-' :: fmtNat 4 d.year)) = some d := by
  obtain ⟨h1, h2, h3, h4, h5, h6⟩ := h
  have h31 := daysInMonth_le31 d.year d.month
  simp only [parseWithFmt, fmtSep]
  rw [split_fmt3 '-' _ _ _ (sep_not_mem_fmtNat 2 d.day '-' (by decide))
    (monthAbb_not_dash d.month h3 h4) (sep_not_mem_fmtNat 4 d.year '-' (by decide))]
  simp only []
  rw [parseNumField_fmtNat2 31 d.day h5 (by omega) (by omega),
    parseMonthAbb_ok d.month h3 h4, parseYear4_fmtNat d.year h2]
  simp only []
  exact mkDate_valid _ _ _ ⟨h1, h2, h3, h4, h5, h6⟩

theorem pf_F2 (d : PyDate) (h : ValidDate d) :
    parseWithFmt .fmtDmY
      (fmtNat 2 d.day ++ '/' :: (fmtNat 2 d.month ++ '/' :: fmtNat 4 d.year)) = some d := by
  obtain ⟨h1, h2, h3, h4, h5, h6⟩ := h
  have h31 := daysInMonth_le31 d.year d.month
  simp only [parseWithFmt, fmtSep]
  rw [split_fmt3 '/' _ _ _ (sep_not_mem_fmtNat 2 d.day '/' (by decide))
    (sep_not_mem_fmtNat 2 d.month '/' (by decide))
    (sep_not_mem_fmtNat 4 d.year '/' (by decide))]
  simp only []
  rw [parseNumField_fmtNat2 31 d.day h5 (by omega) (by omega),
    parseNumField_fmtNat2 12 d.month h3 h4 (by omega), parseYear4_fmtNat d.year h2]
  simp only []
  exact mkDate_valid _ _ _ ⟨h1, h2, h3, h4, h5, h6⟩

theorem pf_F3 (d : PyDate) (h : ValidDate d) :
    parseWithFmt .fmtYmD
      (fmtNat 4 d.year ++ '-' :: (fmtNat 2 d.month ++ '-' :: fmtNat 2 d.day)) = some d := by
  obtain ⟨h1, h2, h3, h4, h5, h6⟩ := h
  have h31 := daysInMonth_le31 d.year d.month
  simp only [parseWithFmt, fmtSep]
  rw [split_fmt3 '-' _ _ _ (sep_not_mem_fmtNat 4 d.year '-' (by decide))
    (sep_not_mem_fmtNat 2 d.month '-' (by decide))
    (sep_not_mem_fmtNat 2 d.day '-' (by decide))]
  simp only []
  rw [parseYear4_fmtNat d.year h2, parseNumField_fmtNat2 12 d.month h3 h4 (by omega),
    parseNumField_fmtNat2 31 d.day h5 (by omega) (by omega)]
  simp only []
  exact mkDate_valid _ _ _ ⟨h1, h2, h3, h4, h5, h6⟩

theorem pf_F4 (d : PyDate) (h : ValidDate d) :
    parseWithFmt .fmtDmY2
      (fmtNat 2 d.day ++ '-' :: (fmtNat 2 d.month ++ '-' :: fmtNat 4 d.year)) = some d := by
  obtain ⟨h1, h2, h3, h4, h5, h6⟩ := h
  have h31 := daysInMonth_le31 d.year d.month
  simp only [parseWithFmt, fmtSep]
  rw [split_fmt3 '-' _ _ _ (sep_not_mem_fmtNat 2 d.day '-' (by decide))
    (sep_not_mem_fmtNat 2 d.month '-' (by decide))
    (sep_not_mem_fmtNat 4 d.year '-' (by decide))]
  simp only []
  rw [parseNumField_fmtNat2 31 d.day h5 (by omega) (by omega),
    parseNumField_fmtNat2 12 d.month h3 h4 (by omega), parseYear4_fmtNat d.year h2]
  simp only []
  exact mkDate_valid _ _ _ ⟨h1, h2, h3, h4, h5, h6⟩

theorem pf_F5 (d : PyDate) (h : ValidDate d) :
    parseWithFmt .fmtDmY3
      (fmtNat 2 d.day ++ '.' :: (fmtNat 2 d.month ++ '.' :: fmtNat 4 d.year)) = some d := by
  obtain ⟨h1, h2, h3, h4, h5, h6⟩ := h
  have h31 := daysInMonth_le31 d.year d.month
  simp only [parseWithFmt, fmtSep]
  rw [split_fmt3 '.' _ _ _ (sep_not_mem_fmtNat 2 d.day '.' (by decide))
    (sep_not_mem_fmtNat 2 d.month '.' (by decide))
    (sep_not_mem_fmtNat 4 d.year '.' (by decide))]
  simp only []
  rw [parseNumField_fmtNat2 31 d.day h5 (by omega) (by omega),
    parseNumField_fmtNat2 12 d.month h3 h4 (by omega), parseYear4_fmtNat d.year h2]
  simp only []
  exact mkDate_valid _ _ _ ⟨h1, h2, h3, h4, h5, h6⟩

theorem pf_F6 (d : PyDate) (h : ValidDate d) :
    parseWithFmt .fmtMdY
      (fmtNat 2 d.month ++ '/' :: (fmtNat 2 d.day ++ '/' :: fmtNat 4 d.year)) = some d := by
  obtain ⟨h1, h2, h3, h4, h5, h6⟩ := h
  have h31 := daysInMonth_le31 d.year d.month
  simp only [parseWithFmt, fmtSep]
  rw [split_fmt3 '/' _ _ _ (sep_not_mem_fmtNat 2 d.month '/' (by decide))
    (sep_not_mem_fmtNat 2 d.day '/' (by decide))
    (sep_not_mem_fmtNat 4 d.year '/' (by decide))]
  simp only []
  rw [parseNumField_fmtNat2 12 d.month h3 h4 (by omega),
    parseNumField_fmtNat2 31 d.day h5 (by omega) (by omega), parseYear4_fmtNat d.year h2]
  simp only []
  exact mkDate_valid _ _ _ ⟨h1, h2, h3, h4, h5, h6⟩

theorem pf_F2_on_s6 (d : PyDate) (h : ValidDate d) (hd : d.day ≤ 12) :
    parseWithFmt .fmtDmY
      (fmtNat 2 d.month ++ '/' :: (fmtNat 2 d.day ++ '/' :: fmtNat 4 d.year))
      = some ⟨d.year, d.day, d.month⟩ := by
  obtain ⟨h1, h2, h3, h4, h5, h6⟩ := h
  have h28 := daysInMonth_ge28 d.year d.day
  simp only [parseWithFmt, fmtSep]
  rw [split_fmt3 '/' _ _ _ (sep_not_mem_fmtNat 2 d.month '/' (by decide))
    (sep_not_mem_fmtNat 2 d.day '/' (by decide))
    (sep_not_mem_fmtNat 4 d.year '/' (by decide))]
  simp only []
  rw [parseNumField_fmtNat2 31 d.month h3 (by omega) (by omega),
    parseNumField_fmtNat2 12 d.day h5 hd (by omega), parseYear4_fmtNat d.year h2]
  simp only []
  exact mkDate_valid _ _ _ ⟨h1, h2, h5, hd, h3, by omega⟩

theorem pf_F2_on_s6_none (d : PyDate) (h : ValidDate d) (hd : 12 < d.day) :
    parseWithFmt .fmtDmY
      (fmtNat 2 d.month ++ '/' :: (fmtNat 2 d.day ++ '/' :: fmtNat 4 d.year)) = none := by
  simp only [parseWithFmt, fmtSep]
  rw [split_fmt3 '/' _ _ _ (sep_not_mem_fmtNat 2 d.month '/' (by decide))
    (sep_not_mem_fmtNat 2 d.day '/' (by decide))
    (sep_not_mem_fmtNat 4 d.year '/' (by decide))]
  simp only []
  rw [parseNumField_big 12 (fmtNat 2 d.day) (by rw [charsToNat_fmtNat]; omega)]
  cases parseNumField 31 (fmtNat 2 d.month) <;> cases parseYear4 (fmtNat 4 d.year) <;> rfl

theorem parseWithFmt_no_sep (fmt : DateFmt) (s : PyStr) (h : fmtSep fmt ∉ s) :
    parseWithFmt fmt s = none := by
  simp only [parseWithFmt]
  rw [splitOnChar_no_sep _ _ h]

theorem pf_F1_mid (a b c2 : PyStr) (ha : '-' ∉ a) (hb : '-' ∉ b) (hc : '-' ∉ c2)
    (hlen : b.length ≠ 3) :
    parseWithFmt .fmtDbY (a ++ '-' :: (b ++ '-' :: c2)) = none := by
  simp only [parseWithFmt, fmtSep]
  rw [split_fmt3 '-' a b c2 ha hb hc]
  simp only []
  rw [parseMonthAbb_len b hlen]
  cases parseNumField 31 a <;> cases parseYear4 c2 <;> rfl

theorem pf_F3_first (a b c2 : PyStr) (ha : '-' ∉ a) (hb : '-' ∉ b) (hc : '-' ∉ c2)
    (hlen : a.length ≠ 4) :
    parseWithFmt .fmtYmD (a ++ '-' :: (b ++ '-' :: c2)) = none := by
  simp only [parseWithFmt, fmtSep]
  rw [split_fmt3 '-' a b c2 ha hb hc]
  simp only []
  rw [parseYear4_len a hlen]

theorem tryFormats_cons_some (f : DateFmt) (fs : List DateFmt) (s : PyStr) (d : PyDate)
    (h : parseWithFmt f s = some d) : tryFormats (f :: fs) s = some d := by
  unfold tryFormats
  rw [h]

theorem tryFormats_cons_none (f : DateFmt) (fs : List DateFmt) (s : PyStr)
    (h : parseWithFmt f s = none) : tryFormats (f :: fs) s = tryFormats fs s := by
  conv_lhs => rw [tryFormats]
  rw [h]

theorem parse_date_format (fmt : DateFmt) (d : PyDate) (h : ValidDate d) :
    parse_date (some (formatDate fmt d)) = tryFormats dateFormats (formatDate fmt d) := by
  unfold parse_date
  rw [truthy_of_ne_nil _ (formatDate_ne_nil fmt d), if_neg (by simp)]
  simp only [Option.getD_some]
  rw [pyStrip_formatDate fmt d h]

theorem roundtrip_F1 (d : PyDate) (h : ValidDate d) :
    parse_date (some (formatDate .fmtDbY d)) = some d := by
  rw [parse_date_format .fmtDbY d h]
  simp only [dateFormats]
  have hfd : formatDate .fmtDbY d
      = fmtNat 2 d.day ++ '-' :: (monthAbb d.month ++ '-' :: fmtNat 4 d.year) := rfl
  rw [hfd]
  exact tryFormats_cons_some _ _ _ _ (pf_F1 d h)

theorem roundtrip_F2 (d : PyDate) (h : ValidDate d) :
    parse_date (some (formatDate .fmtDmY d)) = some d := by
  obtain ⟨h1, h2, h3, h4, h5, h6⟩ := h
  rw [parse_date_format .fmtDmY d ⟨h1, h2, h3, h4, h5, h6⟩]
  simp only [dateFormats]
  have hfd : formatDate .fmtDmY d
      = fmtNat 2 d.day ++ '/' :: (fmtNat 2 d.month ++ '/' :: fmtNat 4 d.year) := rfl
  rw [hfd]
  have hdash : '-' ∉ fmtNat 2 d.day ++ '/' :: (fmtNat 2 d.month ++ '/' :: fmtNat 4 d.year) :=
    not_mem_three _ _ _ '/' '-' (by decide) (sep_not_mem_fmtNat 2 d.day '-' (by decide))
      (sep_not_mem_fmtNat 2 d.month '-' (by decide))
      (sep_not_mem_fmtNat 4 d.year '-' (by decide))
  rw [tryFormats_cons_none _ _ _ (parseWithFmt_no_sep .fmtDbY _ hdash)]
  exact tryFormats_cons_some _ _ _ _ (pf_F2 d ⟨h1, h2, h3, h4, h5, h6⟩)

theorem roundtrip_F3 (d : PyDate) (h : ValidDate d) :
    parse_date (some (formatDate .fmtYmD d)) = some d := by
  obtain ⟨h1, h2, h3, h4, h5, h6⟩ := h
  have h31 := daysInMonth_le31 d.year d.month
  rw [parse_date_format .fmtYmD d ⟨h1, h2, h3, h4, h5, h6⟩]
  simp only [dateFormats]
  have hfd : formatDate .fmtYmD d
      = fmtNat 4 d.year ++ '-' :: (fmtNat 2 d.month ++ '-' :: fmtNat 2 d.day) := rfl
  rw [hfd]
  have hy : '-' ∉ fmtNat 4 d.year := sep_not_mem_fmtNat 4 d.year '-' (by decide)
  have hm : '-' ∉ fmtNat 2 d.month := sep_not_mem_fmtNat 2 d.month '-' (by decide)
  have hd2 : '-' ∉ fmtNat 2 d.day := sep_not_mem_fmtNat 2 d.day '-' (by decide)
  have hml : (fmtNat 2 d.month).length = 2 := fmtNat_length 2 d.month (by omega) (by omega)
  rw [tryFormats_cons_none _ _ _ (pf_F1_mid _ _ _ hy hm hd2 (by omega))]
  have hslash : '/' ∉ fmtNat 4 d.year ++ '-' :: (fmtNat 2 d.month ++ '-' :: fmtNat 2 d.day) :=
    not_mem_three _ _ _ '-' '/' (by decide) (sep_not_mem_fmtNat 4 d.year '/' (by decide))
      (sep_not_mem_fmtNat 2 d.month '/' (by decide))
      (sep_not_mem_fmtNat 2 d.day '/' (by decide))
  rw [tryFormats_cons_none _ _ _ (parseWithFmt_no_sep .fmtDmY _ hslash)]
  exact tryFormats_cons_some _ _ _ _ (pf_F3 d ⟨h1, h2, h3, h4, h5, h6⟩)

theorem roundtrip_F4 (d : PyDate) (h : ValidDate d) :
    parse_date (some (formatDate .fmtDmY2 d)) = some d := by
  obtain ⟨h1, h2, h3, h4, h5, h6⟩ := h
  have h31 := daysInMonth_le31 d.year d.month
  rw [parse_date_format .fmtDmY2 d ⟨h1, h2, h3, h4, h5, h6⟩]
  simp only [dateFormats]
  have hfd : formatDate .fmtDmY2 d
      = fmtNat 2 d.day ++ '-' :: (fmtNat 2 d.month ++ '-' :: fmtNat 4 d.year) := rfl
  rw [hfd]
  have hdd : '-' ∉ fmtNat 2 d.day := sep_not_mem_fmtNat 2 d.day '-' (by decide)
  have hm : '-' ∉ fmtNat 2 d.month := sep_not_mem_fmtNat 2 d.month '-' (by decide)
  have hy : '-' ∉ fmtNat 4 d.year := sep_not_mem_fmtNat 4 d.year '-' (by decide)
  have hml : (fmtNat 2 d.month).length = 2 := fmtNat_length 2 d.month (by omega) (by omega)
  have hdl : (fmtNat 2 d.day).length = 2 := fmtNat_length 2 d.day (by omega) (by omega)
  rw [tryFormats_cons_none _ _ _ (pf_F1_mid _ _ _ hdd hm hy (by omega))]
  have hslash : '/' ∉ fmtNat 2 d.day ++ '-' :: (fmtNat 2 d.month ++ '-' :: fmtNat 4 d.year) :=
    not_mem_three _ _ _ '-' '/' (by decide) (sep_not_mem_fmtNat 2 d.day '/' (by decide))
      (sep_not_mem_fmtNat 2 d.month '/' (by decide))
      (sep_not_mem_fmtNat 4 d.year '/' (by decide))
  rw [tryFormats_cons_none _ _ _ (parseWithFmt_no_sep .fmtDmY _ hslash)]
  rw [tryFormats_cons_none _ _ _ (pf_F3_first _ _ _ hdd hm hy (by omega))]
  exact tryFormats_cons_some _ _ _ _ (pf_F4 d ⟨h1, h2, h3, h4, h5, h6⟩)

theorem roundtrip_F5 (d : PyDate) (h : ValidDate d) :
    parse_date (some (formatDate .fmtDmY3 d)) = some d := by
  obtain ⟨h1, h2, h3, h4, h5, h6⟩ := h
  rw [parse_date_format .fmtDmY3 d ⟨h1, h2, h3, h4, h5, h6⟩]
  simp only [dateFormats]
  have hfd : formatDate .fmtDmY3 d
      = fmtNat 2 d.day ++ '.' :: (fmtNat 2 d.month ++ '.' :: fmtNat 4 d.year) := rfl
  rw [hfd]
  have hdash : '-' ∉ fmtNat 2 d.day ++ '.' :: (fmtNat 2 d.month ++ '.' :: fmtNat 4 d.year) :=
    not_mem_three _ _ _ '.' '-' (by decide) (sep_not_mem_fmtNat 2 d.day '-' (by decide))
      (sep_not_mem_fmtNat 2 d.month '-' (by decide))
      (sep_not_mem_fmtNat 4 d.year '-' (by decide))
  have hslash : '/' ∉ fmtNat 2 d.day ++ '.' :: (fmtNat 2 d.month ++ '.' :: fmtNat 4 d.year) :=
    not_mem_three _ _ _ '.' '/' (by decide) (sep_not_mem_fmtNat 2 d.day '/' (by decide))
      (sep_not_mem_fmtNat 2 d.month '/' (by decide))
      (sep_not_mem_fmtNat 4 d.year '/' (by decide))
  rw [tryFormats_cons_none _ _ _ (parseWithFmt_no_sep .fmtDbY _ hdash)]
  rw [tryFormats_cons_none _ _ _ (parseWithFmt_no_sep .fmtDmY _ hslash)]
  rw [tryFormats_cons_none _ _ _ (parseWithFmt_no_sep .fmtYmD _ hdash)]
  rw [tryFormats_cons_none _ _ _ (parseWithFmt_no_sep .fmtDmY2 _ hdash)]
  exact tryFormats_cons_some _ _ _ _ (pf_F5 d ⟨h1, h2, h3, h4, h5, h6⟩)

theorem parse_s6 (d : PyDate) (h : ValidDate d) :
    parse_date (some (formatDate .fmtMdY d)) =
      if d.day ≤ 12 then some ⟨d.year, d.day, d.month⟩ else some d := by
  obtain ⟨h1, h2, h3, h4, h5, h6⟩ := h
  rw [parse_date_format .fmtMdY d ⟨h1, h2, h3, h4, h5, h6⟩]
  simp only [dateFormats]
  have hfd : formatDate .fmtMdY d
      = fmtNat 2 d.month ++ '/' :: (fmtNat 2 d.day ++ '/' :: fmtNat 4 d.year) := rfl
  rw [hfd]
  have hdash : '-' ∉ fmtNat 2 d.month ++ '/' :: (fmtNat 2 d.day ++ '/' :: fmtNat 4 d.year) :=
    not_mem_three _ _ _ '/' '-' (by decide) (sep_not_mem_fmtNat 2 d.month '-' (by decide))
      (sep_not_mem_fmtNat 2 d.day '-' (by decide))
      (sep_not_mem_fmtNat 4 d.year '-' (by decide))
  have hdot : '.' ∉ fmtNat 2 d.month ++ '/' :: (fmtNat 2 d.day ++ '/' :: fmtNat 4 d.year) :=
    not_mem_three _ _ _ '/' '.' (by decide) (sep_not_mem_fmtNat 2 d.month '.' (by decide))
      (sep_not_mem_fmtNat 2 d.day '.' (by decide))
      (sep_not_mem_fmtNat 4 d.year '.' (by decide))
  rw [tryFormats_cons_none _ _ _ (parseWithFmt_no_sep .fmtDbY _ hdash)]
  by_cases hd : d.day ≤ 12
  · rw [if_pos hd]
    exact tryFormats_cons_some _ _ _ _ (pf_F2_on_s6 d ⟨h1, h2, h3, h4, h5, h6⟩ hd)
  · rw [if_neg hd]
    rw [tryFormats_cons_none _ _ _ (pf_F2_on_s6_none d ⟨h1, h2, h3, h4, h5, h6⟩ (by omega))]
    rw [tryFormats_cons_none _ _ _ (parseWithFmt_no_sep .fmtYmD _ hdash)]
    rw [tryFormats_cons_none _ _ _ (parseWithFmt_no_sep .fmtDmY2 _ hdash)]
    rw [tryFormats_cons_none _ _ _ (parseWithFmt_no_sep .fmtDmY3 _ hdot)]
    exact tryFormats_cons_some _ _ _ _ (pf_F6 d ⟨h1, h2, h3, h4, h5, h6⟩)

theorem parse_date_nomatch (s : PyStr)
    (hall : ∀ fmt, parseWithFmt fmt (pyStrip s) = none) : parse_date (some s) = none := by
  unfold parse_date
  by_cases hs : truthy (some s) = false
  · rw [if_pos hs]
  · rw [if_neg hs]
    simp only [Option.getD_some, dateFormats]
    rw [tryFormats_cons_none _ _ _ (hall .fmtDbY),
      tryFormats_cons_none _ _ _ (hall .fmtDmY),
      tryFormats_cons_none _ _ _ (hall .fmtYmD),
      tryFormats_cons_none _ _ _ (hall .fmtDmY2),
      tryFormats_cons_none _ _ _ (hall .fmtDmY3),
      tryFormats_cons_none _ _ _ (hall .fmtMdY)]
    rfl

theorem pydate_swap_eq_iff (y m dd : ℕ) : PyDate.mk y dd m = PyDate.mk y m dd ↔ dd = m := by
  constructor
  · intro he
    exact congrArg PyDate.month he
  · intro he
    rw [he]

/-- C6 counterexample: the date 2 January 2025 formatted with the `%m/%d/%Y`
pattern gives `01/02/2025`, but `parse_date` tries `%d/%m/%Y` earlier in the
format list and returns 1 February 2025, so the round-trip does not recover the
original date. -/
theorem claim_C6_counterexample :
    formatDate .fmtMdY ⟨2025, 1, 2⟩ = "01/02/2025".toList ∧
    parse_date (some ("01/02/2025".toList)) = some ⟨2025, 2, 1⟩ ∧
    (⟨2025, 2, 1⟩ : PyDate) ≠ (⟨2025, 1, 2⟩ : PyDate) :=
  ⟨by decide, by decide, by decide⟩

/-- C6 (amended): for every valid date, formatting with each of the first five
patterns (`%d-%b-%Y`, `%d/%m/%Y`, `%Y-%m-%d`, `%d-%m-%Y`, `%d.%m.%Y`) and
applying `parse_date` recovers the date; for the sixth pattern `%m/%d/%Y` the
round-trip holds exactly when the day exceeds 12 (otherwise `%d/%m/%Y`, tried
earlier, intercepts the string and swaps day and month) or the day equals the
month; and an input matched by no pattern yields `none` rather than an error. -/
theorem claim_C6_amended (d : PyDate) (h : ValidDate d) :
    parse_date (some (formatDate .fmtDbY d)) = some d ∧
    parse_date (some (formatDate .fmtDmY d)) = some d ∧
    parse_date (some (formatDate .fmtYmD d)) = some d ∧
    parse_date (some (formatDate .fmtDmY2 d)) = some d ∧
    parse_date (some (formatDate .fmtDmY3 d)) = some d ∧
    (parse_date (some (formatDate .fmtMdY d)) = some d ↔ 12 < d.day ∨ d.day = d.month) ∧
    ∀ s : PyStr, (∀ fmt, parseWithFmt fmt (pyStrip s) = none) →
      parse_date (some s) = none := by
  refine ⟨roundtrip_F1 d h, roundtrip_F2 d h, roundtrip_F3 d h, roundtrip_F4 d h,
    roundtrip_F5 d h, ?_, fun s hall => parse_date_nomatch s hall⟩
  constructor
  · intro hp
    rw [parse_s6 d h] at hp
    by_cases hd : d.day ≤ 12
    · rw [if_pos hd] at hp
      right
      have h2 : PyDate.mk d.year d.day d.month = PyDate.mk d.year d.month d.day :=
        Option.some.inj hp
      exact (pydate_swap_eq_iff d.year d.month d.day).mp h2
    · left
      omega
  · intro hor
    rw [parse_s6 d h]
    by_cases hd : d.day ≤ 12
    · rw [if_pos hd]
      rcases hor with h12 | heq
      · exact absurd h12 (by omega)
      · show some (PyDate.mk d.year d.day d.month) = some (PyDate.mk d.year d.month d.day)
        exact congrArg some ((pydate_swap_eq_iff d.year d.month d.day).mpr heq)
    · rw [if_neg hd]

/-- C6 witness: the amended round-trip theorem applied at 15 August 2025, whose
day exceeds 12, so both the `%d-%b-%Y` round-trip and the `%m/%d/%Y` round-trip
hold. -/
theorem claim_C6_amended_witness :
    parse_date (some (formatDate .fmtDbY ⟨2025, 8, 15⟩)) = some ⟨2025, 8, 15⟩ ∧
    (parse_date (some (formatDate .fmtMdY ⟨2025, 8, 15⟩)) = some ⟨2025, 8, 15⟩ ↔
      12 < (15 : ℕ) ∨ (15 : ℕ) = 8) := by
  have hc := claim_C6_amended ⟨2025, 8, 15⟩ (by decide)
  exact ⟨hc.1, hc.2.2.2.2.2.1⟩
